import Mathlib

/-!
A shallow embedding of the BBR congestion-control module
(src/bbr/tcp_bbr_note.c) and proofs about the claims of its
specification.  Machine integers are modelled as Nat with explicit
truncation (% 2 ^ w) at the points where the C code can wrap; the
external random draw of prandom_u32_max is threaded as an explicit
argument; host clocks (jiffies, microsecond stamps) are fields of the
modelled connection state.
-/

set_option maxRecDepth 4096

/-! ## Scaling constants (from the source) -/

def BW_SCALE : Nat := 24

def BW_UNIT : Nat := 1 <<< BW_SCALE

def BBR_SCALE : Nat := 8

def BBR_UNIT : Nat := 1 <<< BBR_SCALE

def CYCLE_LEN : Nat := 8

def bbr_bw_rtts : Nat := CYCLE_LEN + 2

def bbr_min_rtt_win_sec : Nat := 10

def bbr_probe_rtt_mode_ms : Nat := 200

def bbr_min_tso_rate : Nat := 1200000

def bbr_pacing_margin_percent : Nat := 1

def bbr_high_gain : Nat := BBR_UNIT * 2885 / 1000 + 1

def bbr_drain_gain : Nat := BBR_UNIT * 1000 / 2885

def bbr_cwnd_gain : Nat := BBR_UNIT * 2

/-- The pacing_gain values for the PROBE_BW gain cycle. -/
def bbr_pacing_gain_cycle : List Nat :=
  [BBR_UNIT * 5 / 4, BBR_UNIT * 3 / 4,
   BBR_UNIT, BBR_UNIT, BBR_UNIT, BBR_UNIT, BBR_UNIT, BBR_UNIT]

def bbr_cycle_rand : Nat := 7

def bbr_cwnd_min_target : Nat := 4

def bbr_full_bw_thresh : Nat := BBR_UNIT * 5 / 4

def bbr_full_bw_cnt : Nat := 3

def bbr_lt_intvl_min_rtts : Nat := 4

def bbr_lt_loss_thresh : Nat := 50

/-- Consistency threshold for two LT intervals (source constant bbr_lt_bw_ratio,
value BBR_UNIT / 8). -/
def bbr_lt_bw_ratio_thr : Nat := BBR_UNIT / 8

def bbr_lt_bw_diff : Nat := 4000 / 8

def bbr_lt_bw_max_rtts : Nat := 48

def bbr_extra_acked_gain : Nat := BBR_UNIT

def bbr_extra_acked_win_rtts : Nat := 5

def bbr_ack_epoch_acked_reset_thresh : Nat := 1 <<< 20

def bbr_extra_acked_max_us : Nat := 100 * 1000

/-! ## Host-side constants (values of the Linux headers the source includes) -/

def USEC_PER_SEC : Nat := 1000000

def USEC_PER_MSEC : Nat := 1000

def NSEC_PER_USEC : Nat := 1000

def TCP_INIT_CWND : Nat := 10

/-- Modelled from the spec: host tick rate for the jiffy clock. -/
def HZ : Nat := 1000

def msecs_to_jiffies (m : Nat) : Nat := m * HZ / 1000

/-- Modelled from the spec: host GSO size ceiling consulted by the TSO hint. -/
def GSO_MAX_SIZE : Nat := 65536

/-- Modelled from the spec: host header budget subtracted from the GSO ceiling. -/
def MAX_TCP_HEADER : Nat := 240

def TCP_CA_Open : Nat := 0

def TCP_CA_Disorder : Nat := 1

def TCP_CA_CWR : Nat := 2

def TCP_CA_Recovery : Nat := 3

def TCP_CA_Loss : Nat := 4

def CA_EVENT_TX_START : Nat := 0

/-- The u32 all-ones value (~0U). -/
def u32max : Nat := 2 ^ 32 - 1

/-! ## u32 sequence-number helpers (net/tcp.h) -/

/-- u32 subtraction a - b, as the kernel computes it. -/
def u32sub (a b : Nat) : Nat := (a % 2 ^ 32 + 2 ^ 32 - b % 2 ^ 32) % 2 ^ 32

/-- before(seq1, seq2): the s32 view of seq1 - seq2 is negative. -/
def tcp_before (a b : Nat) : Bool := 2 ^ 31 ≤ u32sub a b

/-- after(seq1, seq2) = before(seq2, seq1). -/
def tcp_after (a b : Nat) : Bool := tcp_before b a

/-- The absolute value of the s32 view of the u32 difference a - b
(the kernel abs() applied to a u32 subtraction). -/
def u32abs_sub (a b : Nat) : Nat :=
  if u32sub a b < 2 ^ 31 then u32sub a b else 2 ^ 32 - u32sub a b

/-- tcp_stamp_us_delta(t1, t0) = max(t1 - t0, 0) over microsecond stamps,
which Nat truncated subtraction realises. -/
def tcp_stamp_us_delta (t1 t0 : Nat) : Nat := t1 - t0

/-! ## The windowed max filter.
Modelled from the spec (section 4.2): the host library lib/win_minmax.c
referenced by the source keeps three (value, timestamp) candidates; expired
candidates are dropped and a new sample replaces any candidate it dominates. -/

structure minmax_sample where
  t : Nat
  v : Nat
deriving DecidableEq, Repr

structure minmax where
  s0 : minmax_sample
  s1 : minmax_sample
  s2 : minmax_sample
deriving DecidableEq, Repr

def minmax_reset (t v : Nat) : minmax := ⟨⟨t, v⟩, ⟨t, v⟩, ⟨t, v⟩⟩

def minmax_get (m : minmax) : Nat := m.s0.v

def minmax_subwin_update (m : minmax) (win : Nat) (val : minmax_sample) : minmax :=
  let dt := u32sub val.t m.s0.t
  if win < dt then
    let m2 : minmax := ⟨m.s1, m.s2, val⟩
    if win < u32sub val.t m2.s0.t then ⟨m2.s1, m2.s2, val⟩ else m2
  else if m.s1.t = m.s0.t ∧ win / 4 < dt then ⟨m.s0, val, val⟩
  else if m.s2.t = m.s1.t ∧ win / 2 < dt then ⟨m.s0, m.s1, val⟩
  else m

def minmax_running_max (m : minmax) (win t meas : Nat) : minmax :=
  if m.s0.v ≤ meas ∨ win < u32sub t m.s2.t then minmax_reset t meas
  else
    let m2 : minmax :=
      if m.s1.v ≤ meas then ⟨m.s0, ⟨t, meas⟩, ⟨t, meas⟩⟩
      else if m.s2.v ≤ meas then ⟨m.s0, m.s1, ⟨t, meas⟩⟩
      else m
    minmax_subwin_update m2 win ⟨t, meas⟩

/-! ## State: rate sample, transport fields, socket fields, BBR block -/

/-- The per-ACK rate sample handed to the module by the transport. -/
structure RateSample where
  delivered : Int
  prior_delivered : Nat
  interval_us : Int
  rtt_us : Int
  losses : Nat
  acked_sacked : Nat
  prior_in_flight : Nat
  is_app_limited : Bool
  is_ack_delayed : Bool
deriving DecidableEq, Repr

/-- The transport (tcp_sock) fields the source reads or writes.
packets_in_flight models the tcp_packets_in_flight(tp) capability. -/
structure Tcp where
  snd_cwnd : Nat
  snd_cwnd_clamp : Nat
  snd_ssthresh : Nat
  mss_cache : Nat
  srtt_us : Nat
  delivered : Nat
  lost : Nat
  app_limited : Nat
  delivered_mstamp : Nat
  tcp_mstamp : Nat
  tcp_clock_cache : Nat
  tcp_wstamp_ns : Nat
  packets_in_flight : Nat
deriving DecidableEq, Repr

/-- The socket fields the source reads or writes, plus the host jiffy clock
and the congestion-avoidance state surfaced by inet_csk. -/
structure Sk where
  sk_pacing_rate : Nat
  sk_max_pacing_rate : Nat
  sk_pacing_shift : Nat
  sk_gso_max_size : Nat
  icsk_ca_state : Nat
  jiffies : Nat
deriving DecidableEq, Repr

inductive bbr_mode where
  | BBR_STARTUP
  | BBR_DRAIN
  | BBR_PROBE_BW
  | BBR_PROBE_RTT
deriving DecidableEq, Repr

/-- The BBR congestion control block (struct bbr). -/
structure Bbr where
  min_rtt_us : Nat
  min_rtt_stamp : Nat
  probe_rtt_done_stamp : Nat
  bw : minmax
  rtt_cnt : Nat
  next_rtt_delivered : Nat
  cycle_mstamp : Nat
  mode : bbr_mode
  prev_ca_state : Nat
  packet_conservation : Bool
  round_start : Bool
  idle_restart : Bool
  probe_rtt_round_done : Bool
  lt_is_sampling : Bool
  lt_rtt_cnt : Nat
  lt_use_bw : Bool
  lt_bw : Nat
  lt_last_delivered : Nat
  lt_last_stamp : Nat
  lt_last_lost : Nat
  pacing_gain : Nat
  cwnd_gain : Nat
  full_bw_reached : Bool
  full_bw_cnt : Nat
  cycle_idx : Nat
  has_seen_rtt : Bool
  prior_cwnd : Nat
  full_bw : Nat
  ack_epoch_mstamp : Nat
  extra_acked0 : Nat
  extra_acked1 : Nat
  ack_epoch_acked : Nat
  extra_acked_win_rtts : Nat
  extra_acked_win_idx : Nat
deriving DecidableEq, Repr

/-- The whole connection the hooks act on. -/
structure Conn where
  tp : Tcp
  sk : Sk
  bbr : Bbr
deriving DecidableEq, Repr

/-! ## Accessors -/

def bbr_full_bw_reached (c : Conn) : Bool := c.bbr.full_bw_reached

def bbr_max_bw (c : Conn) : Nat := minmax_get c.bbr.bw

def bbr_bw (c : Conn) : Nat :=
  if c.bbr.lt_use_bw then c.bbr.lt_bw else bbr_max_bw c

def bbr_extra_acked (c : Conn) : Nat := max c.bbr.extra_acked0 c.bbr.extra_acked1

/-- Models the external RNG call prandom_u32_max(n): the draw rnd supplied
by the environment, reduced to the range [0, n). -/
def prandom_u32_max (rnd n : Nat) : Nat := rnd % n

/-! ## Pacing-rate computation -/

/-- Return rate in bytes per second with a gain, in the overflow-avoiding
multiplication order of the source; each u64 step is truncated explicitly. -/
def bbr_rate_bytes_per_sec (c : Conn) (rate : Nat) (gain : Nat) : Nat :=
  let mss := c.tp.mss_cache
  let r1 := rate * mss % 2 ^ 64
  let r2 := r1 * gain % 2 ^ 64
  let r3 := r2 >>> BBR_SCALE
  let r4 := r3 * (USEC_PER_SEC / 100 * (100 - bbr_pacing_margin_percent)) % 2 ^ 64
  r4 >>> BW_SCALE

/-- Convert a BBR bw and gain factor to a pacing rate in bytes per second. -/
def bbr_bw_to_pacing_rate (c : Conn) (bw : Nat) (gain : Nat) : Nat :=
  min (bbr_rate_bytes_per_sec c bw gain) c.sk.sk_max_pacing_rate

/-- Initialize pacing rate to: high_gain * init_cwnd / RTT. -/
def bbr_init_pacing_rate_from_rtt (c : Conn) : Conn :=
  if c.tp.srtt_us ≠ 0 then
    let rtt_us := max (c.tp.srtt_us >>> 3) 1
    let c1 : Conn := { c with bbr := { c.bbr with has_seen_rtt := true } }
    let bw := c1.tp.snd_cwnd * BW_UNIT / rtt_us
    { c1 with sk := { c1.sk with sk_pacing_rate := bbr_bw_to_pacing_rate c1 bw bbr_high_gain } }
  else
    let rtt_us := USEC_PER_MSEC
    let bw := c.tp.snd_cwnd * BW_UNIT / rtt_us
    { c with sk := { c.sk with sk_pacing_rate := bbr_bw_to_pacing_rate c bw bbr_high_gain } }

/-- Pace using the current bw estimate and a gain factor. -/
def bbr_set_pacing_rate (c : Conn) (bw : Nat) (gain : Nat) : Conn :=
  let rate := bbr_bw_to_pacing_rate c bw gain
  let c1 :=
    if ¬ c.bbr.has_seen_rtt ∧ c.tp.srtt_us ≠ 0 then bbr_init_pacing_rate_from_rtt c else c
  if c1.bbr.full_bw_reached ∨ c1.sk.sk_pacing_rate < rate then
    { c1 with sk := { c1.sk with sk_pacing_rate := rate } }
  else c1

/-! ## TSO segment hint -/

def bbr_min_tso_segs (c : Conn) : Nat :=
  if c.sk.sk_pacing_rate < bbr_min_tso_rate >>> 3 then 1 else 2

def bbr_tso_segs_generic (c : Conn) (mss_now gso_max_size : Nat) : Nat :=
  let bytes := c.sk.sk_pacing_rate >>> c.sk.sk_pacing_shift
  let bytes2 := min (bytes % 2 ^ 32) (gso_max_size - 1 - MAX_TCP_HEADER)
  max (bytes2 / mss_now) (bbr_min_tso_segs c)

def bbr_tso_segs (c : Conn) (mss_now : Nat) : Nat :=
  bbr_tso_segs_generic c mss_now c.sk.sk_gso_max_size

def bbr_tso_segs_goal (c : Conn) : Nat :=
  bbr_tso_segs_generic c c.tp.mss_cache GSO_MAX_SIZE

/-! ## cwnd bookkeeping -/

/-- Save the last known good cwnd for restoration after losses or PROBE_RTT. -/
def bbr_save_cwnd (c : Conn) : Conn :=
  if c.bbr.prev_ca_state < TCP_CA_Recovery ∧ c.bbr.mode ≠ bbr_mode.BBR_PROBE_RTT then
    { c with bbr := { c.bbr with prior_cwnd := c.tp.snd_cwnd } }
  else
    { c with bbr := { c.bbr with prior_cwnd := max c.bbr.prior_cwnd c.tp.snd_cwnd } }

/-- Calculate the bdp from the min RTT and the estimated bottleneck bw. -/
def bbr_bdp (c : Conn) (bw : Nat) (gain : Nat) : Nat :=
  if c.bbr.min_rtt_us = u32max then TCP_INIT_CWND
  else
    let w := bw * c.bbr.min_rtt_us
    (w * gain % 2 ^ 64 >>> BBR_SCALE + BW_UNIT - 1) / BW_UNIT

/-- Budget extra cwnd for full-sized skbs in flight on both end hosts. -/
def bbr_quantization_budget (c : Conn) (cwnd : Nat) : Nat :=
  let cwnd1 := cwnd + 3 * bbr_tso_segs_goal c
  let cwnd2 := (cwnd1 + 1) / 2 * 2
  if c.bbr.mode = bbr_mode.BBR_PROBE_BW ∧ c.bbr.cycle_idx = 0 then cwnd2 + 2 else cwnd2

/-- Find inflight based on min RTT and the estimated bottleneck bandwidth. -/
def bbr_inflight (c : Conn) (bw : Nat) (gain : Nat) : Nat :=
  bbr_quantization_budget c (bbr_bdp c bw gain)

/-- Estimate of the packets in the network at the earliest departure time. -/
def bbr_packets_in_net_at_edt (c : Conn) (inflight_now : Nat) : Nat :=
  let now_ns := c.tp.tcp_clock_cache
  let edt_ns := max c.tp.tcp_wstamp_ns now_ns
  let interval_us := (edt_ns - now_ns) / NSEC_PER_USEC
  let interval_delivered := bbr_bw c * interval_us >>> BW_SCALE
  let inflight_at_edt :=
    if BBR_UNIT < c.bbr.pacing_gain then inflight_now + bbr_tso_segs_goal c else inflight_now
  if inflight_at_edt ≤ interval_delivered then 0
  else inflight_at_edt - interval_delivered

/-- Find the cwnd increment based on the estimate of ack aggregation. -/
def bbr_ack_aggregation_cwnd (c : Conn) : Nat :=
  if bbr_extra_acked_gain ≠ 0 ∧ c.bbr.full_bw_reached then
    let max_aggr_cwnd := bbr_bw c * bbr_extra_acked_max_us / BW_UNIT
    let aggr_cwnd := bbr_extra_acked_gain * bbr_extra_acked c >>> BBR_SCALE
    min aggr_cwnd max_aggr_cwnd
  else 0

/-- The recovery / restore preprocessing of bbr_set_cwnd.  Returns the
packet-conservation flag of the source's bool result, the updated
connection, and the new_cwnd out-parameter. -/
def bbr_set_cwnd_to_recover_or_restore (c : Conn) (rs : RateSample) (acked : Nat) :
    Bool × Conn × Nat :=
  let prev_state := c.bbr.prev_ca_state
  let state := c.sk.icsk_ca_state
  let cwnd0 := c.tp.snd_cwnd
  let cwnd1 := if 0 < rs.losses then max (cwnd0 - rs.losses) 1 else cwnd0
  if state = TCP_CA_Recovery ∧ prev_state ≠ TCP_CA_Recovery then
    let bbr2 : Bbr := { c.bbr with
      packet_conservation := true,
      next_rtt_delivered := c.tp.delivered,
      prev_ca_state := state }
    let cwnd2 := c.tp.packets_in_flight + acked
    let c2 : Conn := { c with bbr := bbr2 }
    if c2.bbr.packet_conservation then
      (true, c2, max cwnd2 (c.tp.packets_in_flight + acked))
    else (false, c2, cwnd2)
  else if TCP_CA_Recovery ≤ prev_state ∧ state < TCP_CA_Recovery then
    let bbr2 : Bbr := { c.bbr with packet_conservation := false, prev_ca_state := state }
    let cwnd2 := max cwnd1 c.bbr.prior_cwnd
    let c2 : Conn := { c with bbr := bbr2 }
    if c2.bbr.packet_conservation then
      (true, c2, max cwnd2 (c.tp.packets_in_flight + acked))
    else (false, c2, cwnd2)
  else
    let bbr2 : Bbr := { c.bbr with prev_ca_state := state }
    let c2 : Conn := { c with bbr := bbr2 }
    if c2.bbr.packet_conservation then
      (true, c2, max cwnd1 (c.tp.packets_in_flight + acked))
    else (false, c2, cwnd1)

/-- The tail of bbr_set_cwnd (the done: label): apply the global clamp and
the PROBE_RTT cap, storing the result in tp->snd_cwnd. -/
def bbr_set_cwnd_done (c : Conn) (cwnd : Nat) : Conn :=
  let snd1 := min cwnd c.tp.snd_cwnd_clamp
  let snd2 := if c.bbr.mode = bbr_mode.BBR_PROBE_RTT then min snd1 bbr_cwnd_min_target else snd1
  { c with tp := { c.tp with snd_cwnd := snd2 } }

/-- Slow-start up toward the target cwnd, or snap down to it. -/
def bbr_set_cwnd (c : Conn) (rs : RateSample) (acked : Nat) (bw : Nat) (gain : Nat) : Conn :=
  if acked = 0 then bbr_set_cwnd_done c c.tp.snd_cwnd
  else
    let r := bbr_set_cwnd_to_recover_or_restore c rs acked
    if r.1 then bbr_set_cwnd_done r.2.1 r.2.2
    else
      let c1 := r.2.1
      let cwnd := r.2.2
      let target0 := bbr_bdp c1 bw gain
      let target1 := target0 + bbr_ack_aggregation_cwnd c1
      let target_cwnd := bbr_quantization_budget c1 target1
      let cwnd2 :=
        if c1.bbr.full_bw_reached then min (cwnd + acked) target_cwnd
        else if cwnd < target_cwnd ∨ c1.tp.delivered < TCP_INIT_CWND then cwnd + acked
        else cwnd
      bbr_set_cwnd_done c1 (max cwnd2 bbr_cwnd_min_target)

/-! ## PROBE_BW gain cycling -/

/-- End the cycle phase if it is time and/or we hit the phase's target. -/
def bbr_is_next_cycle_phase (c : Conn) (rs : RateSample) : Bool :=
  let is_full_length :=
    decide (c.bbr.min_rtt_us < tcp_stamp_us_delta c.tp.delivered_mstamp c.bbr.cycle_mstamp)
  if c.bbr.pacing_gain = BBR_UNIT then is_full_length
  else
    let inflight := bbr_packets_in_net_at_edt c rs.prior_in_flight
    let bw := bbr_max_bw c
    if BBR_UNIT < c.bbr.pacing_gain then
      is_full_length &&
        (rs.losses ≠ 0 || bbr_inflight c bw c.bbr.pacing_gain ≤ inflight)
    else
      is_full_length || inflight ≤ bbr_inflight c bw BBR_UNIT

/-- Advance the pacing-gain cycle to the next phase. -/
def bbr_advance_cycle_phase (c : Conn) : Conn :=
  { c with bbr := { c.bbr with
      cycle_idx := (c.bbr.cycle_idx + 1) % CYCLE_LEN,
      cycle_mstamp := c.tp.delivered_mstamp } }

def bbr_update_cycle_phase (c : Conn) (rs : RateSample) : Conn :=
  if c.bbr.mode = bbr_mode.BBR_PROBE_BW ∧ bbr_is_next_cycle_phase c rs then
    bbr_advance_cycle_phase c
  else c

def bbr_reset_startup_mode (c : Conn) : Conn :=
  { c with bbr := { c.bbr with mode := bbr_mode.BBR_STARTUP } }

/-- Enter PROBE_BW, choosing the starting phase from the external draw rnd. -/
def bbr_reset_probe_bw_mode (c : Conn) (rnd : Nat) : Conn :=
  let c1 : Conn := { c with bbr := { c.bbr with
      mode := bbr_mode.BBR_PROBE_BW,
      cycle_idx := CYCLE_LEN - 1 - prandom_u32_max rnd bbr_cycle_rand } }
  bbr_advance_cycle_phase c1

def bbr_reset_mode (c : Conn) (rnd : Nat) : Conn :=
  if ¬ c.bbr.full_bw_reached then bbr_reset_startup_mode c
  else bbr_reset_probe_bw_mode c rnd

/-! ## Long-term (policer) bandwidth estimator -/

/-- Start a new long-term sampling interval. -/
def bbr_reset_lt_bw_sampling_interval (c : Conn) : Conn :=
  { c with bbr := { c.bbr with
      lt_last_stamp := c.tp.delivered_mstamp / USEC_PER_MSEC % 2 ^ 32,
      lt_last_delivered := c.tp.delivered,
      lt_last_lost := c.tp.lost,
      lt_rtt_cnt := 0 } }

/-- Completely reset long-term bandwidth sampling. -/
def bbr_reset_lt_bw_sampling (c : Conn) : Conn :=
  bbr_reset_lt_bw_sampling_interval
    { c with bbr := { c.bbr with lt_bw := 0, lt_use_bw := false, lt_is_sampling := false } }

/-- A long-term sampling interval is done; estimate whether we are policed. -/
def bbr_lt_bw_interval_done (c : Conn) (bw : Nat) : Conn :=
  if c.bbr.lt_bw ≠ 0 then
    let diff := u32abs_sub bw c.bbr.lt_bw
    if diff * BBR_UNIT % 2 ^ 32 ≤ bbr_lt_bw_ratio_thr * c.bbr.lt_bw % 2 ^ 32 ∨
        bbr_rate_bytes_per_sec c diff BBR_UNIT ≤ bbr_lt_bw_diff then
      { c with bbr := { c.bbr with
          lt_bw := (bw + c.bbr.lt_bw) % 2 ^ 32 / 2,
          lt_use_bw := true,
          pacing_gain := BBR_UNIT,
          lt_rtt_cnt := 0 } }
    else
      bbr_reset_lt_bw_sampling_interval { c with bbr := { c.bbr with lt_bw := bw } }
  else
    bbr_reset_lt_bw_sampling_interval { c with bbr := { c.bbr with lt_bw := bw } }

/-- The tail of bbr_lt_bw_sampling, from the interval-length checks on:
decide whether the current sampling interval is usable and, when a loss ends
it, measure its delivery rate and hand it to bbr_lt_bw_interval_done. -/
def bbr_lt_bw_sampling_interval_check (c2 : Conn) (rs : RateSample) : Conn :=
  if c2.bbr.lt_rtt_cnt < bbr_lt_intvl_min_rtts then c2
  else if 4 * bbr_lt_intvl_min_rtts < c2.bbr.lt_rtt_cnt then bbr_reset_lt_bw_sampling c2
  else if rs.losses = 0 then c2
  else
    let lost := u32sub c2.tp.lost c2.bbr.lt_last_lost
    let delivered := u32sub c2.tp.delivered c2.bbr.lt_last_delivered
    if delivered = 0 ∨
        (lost <<< BBR_SCALE) % 2 ^ 32 < bbr_lt_loss_thresh * delivered % 2 ^ 32 then c2
    else
      let t := u32sub (c2.tp.delivered_mstamp / USEC_PER_MSEC) c2.bbr.lt_last_stamp
      if t = 0 ∨ 2 ^ 31 ≤ t then c2
      else if u32max / USEC_PER_MSEC ≤ t then bbr_reset_lt_bw_sampling c2
      else
        let t2 := t * USEC_PER_MSEC
        let bw := delivered * BW_UNIT / t2
        bbr_lt_bw_interval_done c2 bw

/-- Token-bucket policer detection: sample the long-term delivery rate. -/
def bbr_lt_bw_sampling (c : Conn) (rs : RateSample) (rnd : Nat) : Conn :=
  if c.bbr.lt_use_bw then
    if c.bbr.mode = bbr_mode.BBR_PROBE_BW ∧ c.bbr.round_start ∧
        bbr_lt_bw_max_rtts ≤ (c.bbr.lt_rtt_cnt + 1) % 2 ^ 7 then
      let c1 : Conn := { c with bbr := { c.bbr with lt_rtt_cnt := (c.bbr.lt_rtt_cnt + 1) % 2 ^ 7 } }
      bbr_reset_probe_bw_mode (bbr_reset_lt_bw_sampling c1) rnd
    else if c.bbr.mode = bbr_mode.BBR_PROBE_BW ∧ c.bbr.round_start then
      { c with bbr := { c.bbr with lt_rtt_cnt := (c.bbr.lt_rtt_cnt + 1) % 2 ^ 7 } }
    else c
  else
    if ¬ c.bbr.lt_is_sampling ∧ rs.losses = 0 then c
    else
      let c0 :=
        if c.bbr.lt_is_sampling then c
        else
          let ci := bbr_reset_lt_bw_sampling_interval c
          { ci with bbr := { ci.bbr with lt_is_sampling := true } }
      if rs.is_app_limited then bbr_reset_lt_bw_sampling c0
      else
        let c2 :=
          if c0.bbr.round_start then
            { c0 with bbr := { c0.bbr with lt_rtt_cnt := (c0.bbr.lt_rtt_cnt + 1) % 2 ^ 7 } }
          else c0
        bbr_lt_bw_sampling_interval_check c2 rs

/-! ## Bandwidth and round accounting -/

/-- The tail of bbr_update_bw: fold the delivery-rate sample of a valid
rate sample into the windowed max bw filter unless it is app-limited and
below the current estimate. -/
def bbr_update_bw_sample (c2 : Conn) (rs : RateSample) : Conn :=
  let bw := rs.delivered.toNat * BW_UNIT / rs.interval_us.toNat
  if ¬ rs.is_app_limited ∨ bbr_max_bw c2 ≤ bw then
    { c2 with bbr := { c2.bbr with
        bw := minmax_running_max c2.bbr.bw bbr_bw_rtts c2.bbr.rtt_cnt bw } }
  else c2

/-- Estimate the bandwidth from how fast packets are delivered. -/
def bbr_update_bw (c : Conn) (rs : RateSample) (rnd : Nat) : Conn :=
  let c0 : Conn := { c with bbr := { c.bbr with round_start := false } }
  if rs.delivered < 0 ∨ rs.interval_us ≤ 0 then c0
  else
    let c1 :=
      if ¬ tcp_before rs.prior_delivered c0.bbr.next_rtt_delivered then
        { c0 with bbr := { c0.bbr with
            next_rtt_delivered := c0.tp.delivered,
            rtt_cnt := (c0.bbr.rtt_cnt + 1) % 2 ^ 32,
            round_start := true,
            packet_conservation := false } }
      else c0
    bbr_update_bw_sample (bbr_lt_bw_sampling c1 rs rnd) rs

/-- The round-start slot rotation of bbr_update_ack_aggregation: age the
extra_acked window and zero a fresh slot every bbr_extra_acked_win_rtts rounds. -/
def bbr_ack_agg_rotate (c : Conn) : Conn :=
  if c.bbr.round_start then
    let w := min 0x1F (c.bbr.extra_acked_win_rtts + 1)
    if bbr_extra_acked_win_rtts ≤ w then
      if c.bbr.extra_acked_win_idx = 0 then
        { c with bbr := { c.bbr with
            extra_acked_win_rtts := 0, extra_acked_win_idx := 1, extra_acked1 := 0 } }
      else
        { c with bbr := { c.bbr with
            extra_acked_win_rtts := 0, extra_acked_win_idx := 0, extra_acked0 := 0 } }
    else { c with bbr := { c.bbr with extra_acked_win_rtts := w } }
  else c

/-- The tail of bbr_update_ack_aggregation: compute the excess delivered
beyond the expected amount and keep the windowed max in the current slot. -/
def bbr_ack_agg_store (c3 : Conn) (expected_acked : Nat) : Conn :=
  let extra0 := u32sub c3.bbr.ack_epoch_acked expected_acked
  let extra_acked := min extra0 c3.tp.snd_cwnd
  let slot := if c3.bbr.extra_acked_win_idx = 0 then c3.bbr.extra_acked0 else c3.bbr.extra_acked1
  if slot < extra_acked then
    if c3.bbr.extra_acked_win_idx = 0 then
      { c3 with bbr := { c3.bbr with extra_acked0 := extra_acked % 2 ^ 16 } }
    else
      { c3 with bbr := { c3.bbr with extra_acked1 := extra_acked % 2 ^ 16 } }
  else c3

/-- The epoch accounting of bbr_update_ack_aggregation: reset the sampling
epoch when the ACK rate falls to the expected rate or the epoch is stale,
then accumulate the newly (S)ACKed packets (capped at 20 bits). -/
def bbr_ack_agg_epoch (c1 : Conn) (rs : RateSample) : Conn :=
  let epoch_us := tcp_stamp_us_delta c1.tp.delivered_mstamp c1.bbr.ack_epoch_mstamp
  let expected0 := bbr_bw c1 * epoch_us / BW_UNIT % 2 ^ 32
  if c1.bbr.ack_epoch_acked ≤ expected0 ∨
      bbr_ack_epoch_acked_reset_thresh ≤ c1.bbr.ack_epoch_acked + rs.acked_sacked then
    bbr_ack_agg_store
      { c1 with bbr := { c1.bbr with
          ack_epoch_mstamp := c1.tp.delivered_mstamp,
          ack_epoch_acked := min 0xFFFFF (0 + rs.acked_sacked) } } 0
  else
    bbr_ack_agg_store
      { c1 with bbr := { c1.bbr with
          ack_epoch_acked := min 0xFFFFF (c1.bbr.ack_epoch_acked + rs.acked_sacked) } }
      expected0

/-- Estimate the windowed max degree of ack aggregation. -/
def bbr_update_ack_aggregation (c : Conn) (rs : RateSample) : Conn :=
  if bbr_extra_acked_gain = 0 ∨ rs.acked_sacked = 0 ∨ rs.delivered < 0 ∨
      rs.interval_us ≤ 0 then c
  else bbr_ack_agg_epoch (bbr_ack_agg_rotate c) rs

/-! ## Pipe-full detection, drain, PROBE_RTT -/

/-- Estimate when the pipe is full, from the change in delivery rate. -/
def bbr_check_full_bw_reached (c : Conn) (rs : RateSample) : Conn :=
  if c.bbr.full_bw_reached ∨ ¬ c.bbr.round_start ∨ rs.is_app_limited then c
  else
    let bw_thresh := c.bbr.full_bw * bbr_full_bw_thresh >>> BBR_SCALE % 2 ^ 32
    if bw_thresh ≤ bbr_max_bw c then
      { c with bbr := { c.bbr with full_bw := bbr_max_bw c, full_bw_cnt := 0 } }
    else
      let cnt := (c.bbr.full_bw_cnt + 1) % 4
      { c with bbr := { c.bbr with
          full_bw_cnt := cnt,
          full_bw_reached := decide (bbr_full_bw_cnt ≤ cnt) } }

/-- If the pipe is probably full, drain the queue and enter steady state. -/
def bbr_check_drain (c : Conn) (rs : RateSample) (rnd : Nat) : Conn :=
  let c1 :=
    if c.bbr.mode = bbr_mode.BBR_STARTUP ∧ c.bbr.full_bw_reached then
      let cD : Conn := { c with bbr := { c.bbr with mode := bbr_mode.BBR_DRAIN } }
      { cD with tp := { cD.tp with
          snd_ssthresh := bbr_inflight cD (bbr_max_bw cD) BBR_UNIT } }
    else c
  if c1.bbr.mode = bbr_mode.BBR_DRAIN ∧
      bbr_packets_in_net_at_edt c1 c1.tp.packets_in_flight ≤
        bbr_inflight c1 (bbr_max_bw c1) BBR_UNIT then
    bbr_reset_probe_bw_mode c1 rnd
  else c1

/-- Restore the prior cwnd and pick the next mode when PROBE_RTT is done. -/
def bbr_check_probe_rtt_done (c : Conn) (rnd : Nat) : Conn :=
  if ¬ (c.bbr.probe_rtt_done_stamp ≠ 0 ∧ tcp_after c.sk.jiffies c.bbr.probe_rtt_done_stamp) then c
  else
    let c1 : Conn := { c with bbr := { c.bbr with min_rtt_stamp := c.sk.jiffies } }
    let c2 : Conn := { c1 with tp := { c1.tp with
        snd_cwnd := max c1.tp.snd_cwnd c1.bbr.prior_cwnd } }
    bbr_reset_mode c2 rnd

/-- Exit PROBE_RTT once the round that started at the 4-packet floor is done. -/
def bbr_probe_rtt_maybe_done (cb : Conn) (rnd : Nat) : Conn :=
  if cb.bbr.probe_rtt_round_done then bbr_check_probe_rtt_done cb rnd else cb

/-- The in-PROBE_RTT maintenance of bbr_update_min_rtt: arm the 200 ms
done-stamp when in-flight first reaches the floor, then mark the round done
and re-check the exit condition. -/
def bbr_probe_rtt_update (ca : Conn) (rnd : Nat) : Conn :=
  if ca.bbr.probe_rtt_done_stamp = 0 ∧ ca.tp.packets_in_flight ≤ bbr_cwnd_min_target then
    { ca with bbr := { ca.bbr with
        probe_rtt_done_stamp := (ca.sk.jiffies + msecs_to_jiffies bbr_probe_rtt_mode_ms) % 2 ^ 32,
        probe_rtt_round_done := false,
        next_rtt_delivered := ca.tp.delivered } }
  else if ca.bbr.probe_rtt_done_stamp ≠ 0 then
    bbr_probe_rtt_maybe_done
      (if ca.bbr.round_start then
        { ca with bbr := { ca.bbr with probe_rtt_round_done := true } }
      else ca) rnd
  else ca

/-- While in PROBE_RTT mode: ignore low-rate samples and keep the floor. -/
def bbr_probe_rtt_lifecycle (c2 : Conn) (rnd : Nat) : Conn :=
  if c2.bbr.mode = bbr_mode.BBR_PROBE_RTT then
    let lim := c2.tp.delivered + c2.tp.packets_in_flight
    bbr_probe_rtt_update
      { c2 with tp := { c2.tp with app_limited := if lim = 0 then 1 else lim } } rnd
  else c2

/-- Enter PROBE_RTT when the min_rtt filter window has expired. -/
def bbr_probe_rtt_enter (c1 : Conn) (filter_expired : Bool) : Conn :=
  if 0 < bbr_probe_rtt_mode_ms ∧ filter_expired ∧ ¬ c1.bbr.idle_restart ∧
      c1.bbr.mode ≠ bbr_mode.BBR_PROBE_RTT then
    let ca : Conn := { c1 with bbr := { c1.bbr with mode := bbr_mode.BBR_PROBE_RTT } }
    let cb := bbr_save_cwnd ca
    { cb with bbr := { cb.bbr with probe_rtt_done_stamp := 0 } }
  else c1

/-- Track the windowed min RTT and run the PROBE_RTT lifecycle. -/
def bbr_update_min_rtt (c : Conn) (rs : RateSample) (rnd : Nat) : Conn :=
  let filter_expired :=
    tcp_after c.sk.jiffies ((c.bbr.min_rtt_stamp + bbr_min_rtt_win_sec * HZ) % 2 ^ 32)
  let c1 :=
    if 0 ≤ rs.rtt_us ∧
        (rs.rtt_us.toNat < c.bbr.min_rtt_us ∨ (filter_expired ∧ ¬ rs.is_ack_delayed)) then
      { c with bbr := { c.bbr with
          min_rtt_us := rs.rtt_us.toNat, min_rtt_stamp := c.sk.jiffies } }
    else c
  let c3 := bbr_probe_rtt_lifecycle (bbr_probe_rtt_enter c1 filter_expired) rnd
  if 0 < rs.delivered then { c3 with bbr := { c3.bbr with idle_restart := false } } else c3

/-- Select the gains of the current mode. -/
def bbr_update_gains (c : Conn) : Conn :=
  match c.bbr.mode with
  | bbr_mode.BBR_STARTUP =>
      { c with bbr := { c.bbr with pacing_gain := bbr_high_gain, cwnd_gain := bbr_high_gain } }
  | bbr_mode.BBR_DRAIN =>
      { c with bbr := { c.bbr with pacing_gain := bbr_drain_gain, cwnd_gain := bbr_high_gain } }
  | bbr_mode.BBR_PROBE_BW =>
      { c with bbr := { c.bbr with
          pacing_gain :=
            if c.bbr.lt_use_bw then BBR_UNIT
            else bbr_pacing_gain_cycle.getD c.bbr.cycle_idx 0,
          cwnd_gain := bbr_cwnd_gain } }
  | bbr_mode.BBR_PROBE_RTT =>
      { c with bbr := { c.bbr with pacing_gain := BBR_UNIT, cwnd_gain := BBR_UNIT } }

/-! ## The per-ACK control loop and the other hooks -/

def bbr_update_model (c : Conn) (rs : RateSample) (rnd : Nat) : Conn :=
  bbr_update_gains
    (bbr_update_min_rtt
      (bbr_check_drain
        (bbr_check_full_bw_reached
          (bbr_update_cycle_phase
            (bbr_update_ack_aggregation (bbr_update_bw c rs rnd) rs) rs) rs) rs rnd) rs rnd)

/-- The per-ACK control loop (the cong_control hook bbr_main). -/
def bbr_main (c : Conn) (rs : RateSample) (rnd : Nat) : Conn :=
  let c1 := bbr_update_model c rs rnd
  let bw := bbr_bw c1
  let c2 := bbr_set_pacing_rate c1 bw c1.bbr.pacing_gain
  bbr_set_cwnd c2 rs rs.acked_sacked bw c2.bbr.cwnd_gain

/-- The undo_cwnd hook: reset pipe-full detection and LT state, return the
current snd_cwnd. -/
def bbr_undo_cwnd (c : Conn) : Conn × Nat :=
  let c1 : Conn := { c with bbr := { c.bbr with full_bw := 0, full_bw_cnt := 0 } }
  let c2 := bbr_reset_lt_bw_sampling c1
  (c2, c2.tp.snd_cwnd)

/-- The ssthresh hook: save the cwnd, return the transport's ssthresh. -/
def bbr_ssthresh (c : Conn) : Conn × Nat :=
  let c1 := bbr_save_cwnd c
  (c1, c1.tp.snd_ssthresh)

/-- The cwnd_event hook (idle restart handling). -/
def bbr_cwnd_event (c : Conn) (ev : Nat) (rnd : Nat) : Conn :=
  if ev = CA_EVENT_TX_START ∧ c.tp.app_limited ≠ 0 then
    let c1 : Conn := { c with bbr := { c.bbr with
        idle_restart := true, ack_epoch_mstamp := c.tp.tcp_mstamp, ack_epoch_acked := 0 } }
    if c1.bbr.mode = bbr_mode.BBR_PROBE_BW then bbr_set_pacing_rate c1 (bbr_bw c1) BBR_UNIT
    else if c1.bbr.mode = bbr_mode.BBR_PROBE_RTT then bbr_check_probe_rtt_done c1 rnd
    else c1
  else c

/-- The set_state hook: an RTO (Loss) is treated as end of round and feeds
the LT sampler a synthetic losses = 1 sample. -/
def bbr_set_state (c : Conn) (new_state : Nat) (rnd : Nat) : Conn :=
  if new_state = TCP_CA_Loss then
    let rs : RateSample :=
      { delivered := 0, prior_delivered := 0, interval_us := 0, rtt_us := 0,
        losses := 1, acked_sacked := 0, prior_in_flight := 0,
        is_app_limited := false, is_ack_delayed := false }
    let c1 : Conn := { c with bbr := { c.bbr with
        prev_ca_state := TCP_CA_Loss, full_bw := 0, round_start := true } }
    bbr_lt_bw_sampling c1 rs rnd
  else c

/-! ## Concrete connection states used by witnesses and counterexamples -/

def tp0 : Tcp :=
  { snd_cwnd := 10, snd_cwnd_clamp := 1000, snd_ssthresh := 100, mss_cache := 1500,
    srtt_us := 0, delivered := 100, lost := 0, app_limited := 0,
    delivered_mstamp := 1000000, tcp_mstamp := 1000000,
    tcp_clock_cache := 1000000000, tcp_wstamp_ns := 0, packets_in_flight := 10 }

def sk0 : Sk :=
  { sk_pacing_rate := 100000, sk_max_pacing_rate := 2 ^ 40, sk_pacing_shift := 10,
    sk_gso_max_size := 65536, icsk_ca_state := TCP_CA_Open, jiffies := 1000 }

def bbr0 : Bbr :=
  { min_rtt_us := 50000, min_rtt_stamp := 1000, probe_rtt_done_stamp := 0,
    bw := minmax_reset 1 100, rtt_cnt := 1, next_rtt_delivered := 200,
    cycle_mstamp := 0, mode := bbr_mode.BBR_STARTUP, prev_ca_state := TCP_CA_Open,
    packet_conservation := false, round_start := false, idle_restart := false,
    probe_rtt_round_done := false, lt_is_sampling := false, lt_rtt_cnt := 0,
    lt_use_bw := false, lt_bw := 0, lt_last_delivered := 0, lt_last_stamp := 0,
    lt_last_lost := 0, pacing_gain := bbr_high_gain, cwnd_gain := bbr_high_gain,
    full_bw_reached := false, full_bw_cnt := 0, cycle_idx := 0, has_seen_rtt := true,
    prior_cwnd := 0, full_bw := 0, ack_epoch_mstamp := 1000000,
    extra_acked0 := 0, extra_acked1 := 0, ack_epoch_acked := 0,
    extra_acked_win_rtts := 0, extra_acked_win_idx := 0 }

def conn0 : Conn := { tp := tp0, sk := sk0, bbr := bbr0 }

def rs0 : RateSample :=
  { delivered := 10, prior_delivered := 100, interval_us := 10000, rtt_us := -1,
    losses := 0, acked_sacked := 2, prior_in_flight := 10,
    is_app_limited := false, is_ack_delayed := false }

/-- A connection sitting in PROBE_RTT that stays there across one call. -/
def conn_rtt : Conn :=
  { conn0 with bbr := { bbr0 with mode := bbr_mode.BBR_PROBE_RTT } }

/-- A connection entering loss recovery with almost nothing in flight. -/
def conn_rec : Conn :=
  { conn0 with
    tp := { tp0 with snd_cwnd := 2, packets_in_flight := 0 },
    sk := { sk0 with icsk_ca_state := TCP_CA_Recovery } }

def rs_rec : RateSample := { rs0 with acked_sacked := 1 }

/-- A connection in DRAIN whose in-flight estimate is already small. -/
def conn_drain : Conn :=
  { conn0 with
    tp := { tp0 with packets_in_flight := 5 },
    bbr := { bbr0 with
      mode := bbr_mode.BBR_DRAIN, min_rtt_us := u32max,
      pacing_gain := BBR_UNIT } }

/-- An invalid rate sample (non-positive interval). -/
def rs_invalid : RateSample := { rs0 with interval_us := 0 }

/-- A connection that has reached full bandwidth. -/
def conn_full : Conn :=
  { conn0 with bbr := { bbr0 with
      full_bw_reached := true, full_bw_cnt := 3,
      mode := bbr_mode.BBR_PROBE_BW, cycle_idx := 2,
      pacing_gain := BBR_UNIT, cwnd_gain := bbr_cwnd_gain } }

/-- A connection with a pending LT candidate bandwidth. -/
def conn_lt : Conn :=
  { conn0 with bbr := { bbr0 with lt_bw := 160000, lt_is_sampling := true, lt_rtt_cnt := 5 } }

/-! ## Frame lemmas: which fields each operation leaves untouched -/

/-- The fields of the connection that the long-term sampler never writes. -/
abbrev LtFrame (c d : Conn) : Prop :=
  d.tp = c.tp ∧ d.sk = c.sk ∧
  d.bbr.round_start = c.bbr.round_start ∧
  d.bbr.next_rtt_delivered = c.bbr.next_rtt_delivered ∧
  d.bbr.rtt_cnt = c.bbr.rtt_cnt ∧
  d.bbr.packet_conservation = c.bbr.packet_conservation ∧
  d.bbr.full_bw_reached = c.bbr.full_bw_reached ∧
  d.bbr.bw = c.bbr.bw

theorem ltFrame_rfl (c : Conn) : LtFrame c c :=
  ⟨rfl, rfl, rfl, rfl, rfl, rfl, rfl, rfl⟩

theorem ltFrame_trans {a b c : Conn} (h1 : LtFrame a b) (h2 : LtFrame b c) : LtFrame a c := by
  obtain ⟨t1, s1, r1, n1, c1, p1, f1, w1⟩ := h1
  obtain ⟨t2, s2, r2, n2, c2, p2, f2, w2⟩ := h2
  exact ⟨t2.trans t1, s2.trans s1, r2.trans r1, n2.trans n1, c2.trans c1,
         p2.trans p1, f2.trans f1, w2.trans w1⟩

theorem ltFrame_advance (c : Conn) : LtFrame c (bbr_advance_cycle_phase c) := by
  unfold bbr_advance_cycle_phase
  exact ⟨rfl, rfl, rfl, rfl, rfl, rfl, rfl, rfl⟩

theorem ltFrame_reset_probe_bw (c : Conn) (rnd : Nat) :
    LtFrame c (bbr_reset_probe_bw_mode c rnd) := by
  unfold bbr_reset_probe_bw_mode
  exact ltFrame_trans (⟨rfl, rfl, rfl, rfl, rfl, rfl, rfl, rfl⟩ : LtFrame c _)
    (ltFrame_advance _)

theorem ltFrame_reset_startup (c : Conn) : LtFrame c (bbr_reset_startup_mode c) := by
  unfold bbr_reset_startup_mode
  exact ⟨rfl, rfl, rfl, rfl, rfl, rfl, rfl, rfl⟩

theorem ltFrame_reset_mode (c : Conn) (rnd : Nat) : LtFrame c (bbr_reset_mode c rnd) := by
  unfold bbr_reset_mode
  split
  case isTrue => exact ltFrame_reset_startup c
  case isFalse => exact ltFrame_reset_probe_bw c rnd

theorem ltFrame_reset_interval (c : Conn) :
    LtFrame c (bbr_reset_lt_bw_sampling_interval c) := by
  unfold bbr_reset_lt_bw_sampling_interval
  exact ⟨rfl, rfl, rfl, rfl, rfl, rfl, rfl, rfl⟩

theorem ltFrame_reset_lt (c : Conn) : LtFrame c (bbr_reset_lt_bw_sampling c) := by
  unfold bbr_reset_lt_bw_sampling
  exact ltFrame_trans (⟨rfl, rfl, rfl, rfl, rfl, rfl, rfl, rfl⟩ : LtFrame c _)
    (ltFrame_reset_interval _)

theorem ltFrame_interval_done (c : Conn) (bw : Nat) :
    LtFrame c (bbr_lt_bw_interval_done c bw) := by
  unfold bbr_lt_bw_interval_done
  dsimp only
  repeat' split
  all_goals
    repeat'
      first
      | exact ltFrame_rfl _
      | exact ⟨rfl, rfl, rfl, rfl, rfl, rfl, rfl, rfl⟩
      | refine ltFrame_trans ?_ (ltFrame_reset_interval _)

theorem ltFrame_interval_check (c : Conn) (rs : RateSample) :
    LtFrame c (bbr_lt_bw_sampling_interval_check c rs) := by
  unfold bbr_lt_bw_sampling_interval_check
  dsimp only
  repeat' split
  all_goals
    first
    | exact ltFrame_rfl _
    | exact ltFrame_reset_lt _
    | exact ltFrame_interval_done _ _

theorem ltFrame_lt_bw_sampling (c : Conn) (rs : RateSample) (rnd : Nat) :
    LtFrame c (bbr_lt_bw_sampling c rs rnd) := by
  unfold bbr_lt_bw_sampling
  dsimp only
  repeat' split
  all_goals
    first
    | exact ltFrame_rfl _
    | exact ⟨rfl, rfl, rfl, rfl, rfl, rfl, rfl, rfl⟩
    | exact ltFrame_reset_lt _
    | exact ltFrame_interval_check _ _
    | exact ltFrame_trans (⟨rfl, rfl, rfl, rfl, rfl, rfl, rfl, rfl⟩ : LtFrame c _)
        (ltFrame_reset_lt _)
    | exact ltFrame_trans (⟨rfl, rfl, rfl, rfl, rfl, rfl, rfl, rfl⟩ : LtFrame c _)
        (ltFrame_interval_check _ _)
    | exact ltFrame_trans
        (ltFrame_trans (⟨rfl, rfl, rfl, rfl, rfl, rfl, rfl, rfl⟩ : LtFrame c _)
          (ltFrame_reset_lt _))
        (ltFrame_reset_probe_bw _ _)
    | exact ltFrame_trans
        (ltFrame_trans (ltFrame_reset_interval c)
          (⟨rfl, rfl, rfl, rfl, rfl, rfl, rfl, rfl⟩ : LtFrame (bbr_reset_lt_bw_sampling_interval c) _))
        (ltFrame_reset_lt _)
    | exact ltFrame_trans
        (ltFrame_trans (ltFrame_reset_interval c)
          (⟨rfl, rfl, rfl, rfl, rfl, rfl, rfl, rfl⟩ : LtFrame (bbr_reset_lt_bw_sampling_interval c) _))
        (ltFrame_interval_check _ _)
    | exact ltFrame_trans
        (ltFrame_trans
          (ltFrame_trans (ltFrame_reset_interval c)
            (⟨rfl, rfl, rfl, rfl, rfl, rfl, rfl, rfl⟩ :
              LtFrame (bbr_reset_lt_bw_sampling_interval c) _))
          (⟨rfl, rfl, rfl, rfl, rfl, rfl, rfl, rfl⟩ : LtFrame _ _))
        (ltFrame_interval_check _ _)

/-- The fields preserved by bbr_update_bw regardless of the sample. -/
abbrev BwFrame (c d : Conn) : Prop :=
  d.tp = c.tp ∧ d.sk = c.sk ∧ d.bbr.full_bw_reached = c.bbr.full_bw_reached

theorem bwFrame_of_ltFrame {c d : Conn} (h : LtFrame c d) : BwFrame c d :=
  ⟨h.1, h.2.1, h.2.2.2.2.2.2.1⟩

theorem bwFrame_trans {a b c : Conn} (h1 : BwFrame a b) (h2 : BwFrame b c) : BwFrame a c :=
  ⟨h2.1.trans h1.1, h2.2.1.trans h1.2.1, h2.2.2.trans h1.2.2⟩

theorem bwFrame_update_bw_sample (c2 : Conn) (rs : RateSample) :
    BwFrame c2 (bbr_update_bw_sample c2 rs) := by
  unfold bbr_update_bw_sample
  dsimp only
  split
  all_goals exact ⟨rfl, rfl, rfl⟩

/-- bbr_update_bw_sample touches only the bw filter field. -/
theorem update_bw_sample_fields (c2 : Conn) (rs : RateSample) :
    (bbr_update_bw_sample c2 rs).tp = c2.tp ∧
    (bbr_update_bw_sample c2 rs).bbr.round_start = c2.bbr.round_start ∧
    (bbr_update_bw_sample c2 rs).bbr.next_rtt_delivered = c2.bbr.next_rtt_delivered ∧
    (bbr_update_bw_sample c2 rs).bbr.rtt_cnt = c2.bbr.rtt_cnt ∧
    (bbr_update_bw_sample c2 rs).bbr.packet_conservation = c2.bbr.packet_conservation := by
  unfold bbr_update_bw_sample
  dsimp only
  split
  all_goals exact ⟨rfl, rfl, rfl, rfl, rfl⟩

theorem bwFrame_update_bw (c : Conn) (rs : RateSample) (rnd : Nat) :
    BwFrame c (bbr_update_bw c rs rnd) := by
  unfold bbr_update_bw
  dsimp only
  repeat' split
  all_goals
    first
    | (with_reducible exact ⟨rfl, rfl, rfl⟩)
    | ((with_reducible
        refine bwFrame_trans
          (bwFrame_trans ?_ (bwFrame_of_ltFrame (ltFrame_lt_bw_sampling _ _ _)))
          (bwFrame_update_bw_sample _ _));
       exact ⟨rfl, rfl, rfl⟩)

/-- On an invalid sample, bbr_update_bw only clears round_start. -/
theorem update_bw_invalid (c : Conn) (rs : RateSample) (rnd : Nat)
    (h : rs.delivered < 0 ∨ rs.interval_us ≤ 0) :
    bbr_update_bw c rs rnd = { c with bbr := { c.bbr with round_start := false } } := by
  unfold bbr_update_bw
  dsimp only
  rw [if_pos h]

/-- The fields that every stage downstream of bbr_update_bw preserves. -/
abbrev CoreFrame (c d : Conn) : Prop :=
  d.tp.snd_cwnd_clamp = c.tp.snd_cwnd_clamp ∧
  d.bbr.bw = c.bbr.bw ∧
  d.bbr.rtt_cnt = c.bbr.rtt_cnt

theorem coreFrame_rfl (c : Conn) : CoreFrame c c := ⟨rfl, rfl, rfl⟩

theorem coreFrame_trans {a b c : Conn} (h1 : CoreFrame a b) (h2 : CoreFrame b c) :
    CoreFrame a c :=
  ⟨h2.1.trans h1.1, h2.2.1.trans h1.2.1, h2.2.2.trans h1.2.2⟩

theorem coreFrame_of_ltFrame {c d : Conn} (h : LtFrame c d) : CoreFrame c d :=
  ⟨congrArg Tcp.snd_cwnd_clamp h.1, h.2.2.2.2.2.2.2, h.2.2.2.2.1⟩

theorem coreFrame_rotate (c : Conn) : CoreFrame c (bbr_ack_agg_rotate c) := by
  unfold bbr_ack_agg_rotate
  dsimp only
  repeat' split
  all_goals exact ⟨rfl, rfl, rfl⟩

theorem coreFrame_store (c3 : Conn) (expected_acked : Nat) :
    CoreFrame c3 (bbr_ack_agg_store c3 expected_acked) := by
  unfold bbr_ack_agg_store
  dsimp only
  repeat' split
  all_goals exact ⟨rfl, rfl, rfl⟩

theorem coreFrame_agg_epoch (c1 : Conn) (rs : RateSample) :
    CoreFrame c1 (bbr_ack_agg_epoch c1 rs) := by
  unfold bbr_ack_agg_epoch
  dsimp only
  repeat' split
  all_goals
    ((with_reducible refine coreFrame_trans ?_ (coreFrame_store _ _));
     exact ⟨rfl, rfl, rfl⟩)

theorem coreFrame_ack (c : Conn) (rs : RateSample) :
    CoreFrame c (bbr_update_ack_aggregation c rs) := by
  unfold bbr_update_ack_aggregation
  split
  case isTrue => exact ⟨rfl, rfl, rfl⟩
  case isFalse => exact coreFrame_trans (coreFrame_rotate c) (coreFrame_agg_epoch _ rs)

theorem coreFrame_cycle (c : Conn) (rs : RateSample) :
    CoreFrame c (bbr_update_cycle_phase c rs) := by
  unfold bbr_update_cycle_phase bbr_advance_cycle_phase
  dsimp only
  repeat' split
  all_goals exact ⟨rfl, rfl, rfl⟩

theorem coreFrame_full (c : Conn) (rs : RateSample) :
    CoreFrame c (bbr_check_full_bw_reached c rs) := by
  unfold bbr_check_full_bw_reached
  dsimp only
  repeat' split
  all_goals exact ⟨rfl, rfl, rfl⟩

theorem coreFrame_reset_probe_bw (c : Conn) (rnd : Nat) :
    CoreFrame c (bbr_reset_probe_bw_mode c rnd) :=
  coreFrame_of_ltFrame (ltFrame_reset_probe_bw c rnd)

theorem coreFrame_drain (c : Conn) (rs : RateSample) (rnd : Nat) :
    CoreFrame c (bbr_check_drain c rs rnd) := by
  unfold bbr_check_drain
  dsimp only
  repeat' split
  all_goals
    first
    | exact ⟨rfl, rfl, rfl⟩
    | exact coreFrame_trans (⟨rfl, rfl, rfl⟩ : CoreFrame c _) (coreFrame_reset_probe_bw _ _)

theorem coreFrame_save_cwnd (c : Conn) : CoreFrame c (bbr_save_cwnd c) := by
  unfold bbr_save_cwnd
  repeat' split
  all_goals exact ⟨rfl, rfl, rfl⟩

theorem coreFrame_reset_mode (c : Conn) (rnd : Nat) : CoreFrame c (bbr_reset_mode c rnd) :=
  coreFrame_of_ltFrame (ltFrame_reset_mode c rnd)

theorem coreFrame_probe_rtt_done (c : Conn) (rnd : Nat) :
    CoreFrame c (bbr_check_probe_rtt_done c rnd) := by
  unfold bbr_check_probe_rtt_done
  dsimp only
  repeat' split
  all_goals
    first
    | exact ⟨rfl, rfl, rfl⟩
    | exact coreFrame_trans (⟨rfl, rfl, rfl⟩ : CoreFrame c _) (coreFrame_reset_mode _ _)

theorem coreFrame_maybe_done (cb : Conn) (rnd : Nat) :
    CoreFrame cb (bbr_probe_rtt_maybe_done cb rnd) := by
  unfold bbr_probe_rtt_maybe_done
  split
  case isTrue => exact coreFrame_probe_rtt_done cb rnd
  case isFalse => exact coreFrame_rfl cb

theorem coreFrame_rtt_update (ca : Conn) (rnd : Nat) :
    CoreFrame ca (bbr_probe_rtt_update ca rnd) := by
  unfold bbr_probe_rtt_update
  dsimp only
  repeat' split
  all_goals
    first
    | (with_reducible exact ⟨rfl, rfl, rfl⟩)
    | ((with_reducible refine coreFrame_trans ?_ (coreFrame_maybe_done _ _));
       first
       | (with_reducible exact coreFrame_rfl _)
       | (with_reducible exact ⟨rfl, rfl, rfl⟩))

theorem coreFrame_lifecycle (c2 : Conn) (rnd : Nat) :
    CoreFrame c2 (bbr_probe_rtt_lifecycle c2 rnd) := by
  unfold bbr_probe_rtt_lifecycle
  dsimp only
  repeat' split
  all_goals
    first
    | (with_reducible exact coreFrame_rfl _)
    | ((with_reducible refine coreFrame_trans ?_ (coreFrame_rtt_update _ _));
       exact ⟨rfl, rfl, rfl⟩)

theorem coreFrame_enter (c1 : Conn) (fe : Bool) :
    CoreFrame c1 (bbr_probe_rtt_enter c1 fe) := by
  unfold bbr_probe_rtt_enter
  dsimp only
  repeat' split
  all_goals
    first
    | (with_reducible exact coreFrame_rfl _)
    | ((with_reducible
        refine coreFrame_trans (coreFrame_trans ?_ (coreFrame_save_cwnd _))
          (⟨rfl, rfl, rfl⟩ : CoreFrame _ _));
       exact ⟨rfl, rfl, rfl⟩)

theorem coreFrame_min_rtt (c : Conn) (rs : RateSample) (rnd : Nat) :
    CoreFrame c (bbr_update_min_rtt c rs rnd) := by
  unfold bbr_update_min_rtt
  dsimp only
  repeat' split
  all_goals
    first
    | ((with_reducible
        refine coreFrame_trans
          (coreFrame_trans ?_ (coreFrame_enter _ _)) (coreFrame_lifecycle _ _));
       first
       | (with_reducible exact coreFrame_rfl _)
       | (with_reducible exact ⟨rfl, rfl, rfl⟩))
    | ((with_reducible
        refine coreFrame_trans
          (coreFrame_trans (coreFrame_trans ?_ (coreFrame_enter _ _)) (coreFrame_lifecycle _ _))
          (⟨rfl, rfl, rfl⟩ : CoreFrame _ _));
       first
       | (with_reducible exact coreFrame_rfl _)
       | (with_reducible exact ⟨rfl, rfl, rfl⟩))

/-! ## Preservation of full_bw_reached (claim C7 machinery) -/

theorem rotate_fbr (c : Conn) :
    (bbr_ack_agg_rotate c).bbr.full_bw_reached = c.bbr.full_bw_reached := by
  unfold bbr_ack_agg_rotate
  dsimp only
  repeat' split
  all_goals rfl

theorem store_fbr (c3 : Conn) (e : Nat) :
    (bbr_ack_agg_store c3 e).bbr.full_bw_reached = c3.bbr.full_bw_reached := by
  unfold bbr_ack_agg_store
  dsimp only
  repeat' split
  all_goals rfl

theorem epoch_fbr (c1 : Conn) (rs : RateSample) :
    (bbr_ack_agg_epoch c1 rs).bbr.full_bw_reached = c1.bbr.full_bw_reached := by
  unfold bbr_ack_agg_epoch
  dsimp only
  repeat' split
  all_goals exact store_fbr _ _

theorem ack_fbr (c : Conn) (rs : RateSample) :
    (bbr_update_ack_aggregation c rs).bbr.full_bw_reached = c.bbr.full_bw_reached := by
  unfold bbr_update_ack_aggregation
  split
  case isTrue => rfl
  case isFalse => exact (epoch_fbr _ _).trans (rotate_fbr _)

theorem cycle_fbr (c : Conn) (rs : RateSample) :
    (bbr_update_cycle_phase c rs).bbr.full_bw_reached = c.bbr.full_bw_reached := by
  unfold bbr_update_cycle_phase bbr_advance_cycle_phase
  repeat' split
  all_goals rfl

theorem drain_fbr (c : Conn) (rs : RateSample) (rnd : Nat) :
    (bbr_check_drain c rs rnd).bbr.full_bw_reached = c.bbr.full_bw_reached := by
  unfold bbr_check_drain
  dsimp only
  repeat' split
  all_goals
    first
    | rfl
    | exact (ltFrame_reset_probe_bw _ _).2.2.2.2.2.2.1

theorem save_cwnd_fbr (c : Conn) :
    (bbr_save_cwnd c).bbr.full_bw_reached = c.bbr.full_bw_reached := by
  unfold bbr_save_cwnd
  split
  all_goals rfl

theorem prd_fbr (c : Conn) (rnd : Nat) :
    (bbr_check_probe_rtt_done c rnd).bbr.full_bw_reached = c.bbr.full_bw_reached := by
  unfold bbr_check_probe_rtt_done
  dsimp only
  repeat' split
  all_goals
    first
    | rfl
    | exact (ltFrame_reset_mode _ _).2.2.2.2.2.2.1

theorem maybe_done_fbr (cb : Conn) (rnd : Nat) :
    (bbr_probe_rtt_maybe_done cb rnd).bbr.full_bw_reached = cb.bbr.full_bw_reached := by
  unfold bbr_probe_rtt_maybe_done
  split
  case isTrue => exact prd_fbr cb rnd
  case isFalse => rfl

theorem rtt_update_fbr (ca : Conn) (rnd : Nat) :
    (bbr_probe_rtt_update ca rnd).bbr.full_bw_reached = ca.bbr.full_bw_reached := by
  unfold bbr_probe_rtt_update
  dsimp only
  repeat' split
  all_goals
    first
    | rfl
    | exact maybe_done_fbr _ _

theorem lifecycle_fbr (c2 : Conn) (rnd : Nat) :
    (bbr_probe_rtt_lifecycle c2 rnd).bbr.full_bw_reached = c2.bbr.full_bw_reached := by
  unfold bbr_probe_rtt_lifecycle
  dsimp only
  repeat' split
  all_goals
    first
    | rfl
    | exact rtt_update_fbr _ _

theorem enter_fbr (c1 : Conn) (fe : Bool) :
    (bbr_probe_rtt_enter c1 fe).bbr.full_bw_reached = c1.bbr.full_bw_reached := by
  unfold bbr_probe_rtt_enter
  dsimp only
  repeat' split
  all_goals
    first
    | rfl
    | exact save_cwnd_fbr _

theorem min_rtt_fbr (c : Conn) (rs : RateSample) (rnd : Nat) :
    (bbr_update_min_rtt c rs rnd).bbr.full_bw_reached = c.bbr.full_bw_reached := by
  unfold bbr_update_min_rtt
  dsimp only
  repeat' split
  all_goals exact (lifecycle_fbr _ _).trans (enter_fbr _ _)

theorem gains_fbr (c : Conn) :
    (bbr_update_gains c).bbr.full_bw_reached = c.bbr.full_bw_reached := by
  unfold bbr_update_gains
  repeat' split
  all_goals rfl

/-- bbr_check_full_bw_reached never clears an already-set full_bw_reached. -/
theorem check_full_mono (c : Conn) (rs : RateSample)
    (h : c.bbr.full_bw_reached = true) :
    (bbr_check_full_bw_reached c rs).bbr.full_bw_reached = true := by
  unfold bbr_check_full_bw_reached
  dsimp only
  simp [h]

/-! ## Frame facts for the pacing-rate path -/

/-- The fields bbr_set_pacing_rate leaves untouched. -/
abbrev PacFrame (c d : Conn) : Prop :=
  d.tp = c.tp ∧ d.bbr.mode = c.bbr.mode ∧
  d.bbr.pacing_gain = c.bbr.pacing_gain ∧ d.bbr.cwnd_gain = c.bbr.cwnd_gain ∧
  d.bbr.full_bw_reached = c.bbr.full_bw_reached ∧
  d.bbr.bw = c.bbr.bw ∧ d.bbr.rtt_cnt = c.bbr.rtt_cnt

theorem pacFrame_init (c : Conn) : PacFrame c (bbr_init_pacing_rate_from_rtt c) := by
  unfold bbr_init_pacing_rate_from_rtt
  dsimp only
  split
  all_goals exact ⟨rfl, rfl, rfl, rfl, rfl, rfl, rfl⟩

theorem pacFrame_set_pacing (c : Conn) (bw gain : Nat) :
    PacFrame c (bbr_set_pacing_rate c bw gain) := by
  unfold bbr_set_pacing_rate
  dsimp only
  repeat' split
  all_goals
    first
    | exact ⟨rfl, rfl, rfl, rfl, rfl, rfl, rfl⟩
    | exact pacFrame_init c
    | exact ⟨(pacFrame_init c).1, (pacFrame_init c).2.1, (pacFrame_init c).2.2.1,
        (pacFrame_init c).2.2.2.1, (pacFrame_init c).2.2.2.2.1,
        (pacFrame_init c).2.2.2.2.2.1, (pacFrame_init c).2.2.2.2.2.2⟩

/-! ## Frame facts for the cwnd path -/

/-- The fields bbr_set_cwnd leaves untouched. -/
abbrev CwndFrame (c d : Conn) : Prop :=
  d.sk = c.sk ∧ d.tp.snd_cwnd_clamp = c.tp.snd_cwnd_clamp ∧
  d.bbr.mode = c.bbr.mode ∧
  d.bbr.pacing_gain = c.bbr.pacing_gain ∧ d.bbr.cwnd_gain = c.bbr.cwnd_gain ∧
  d.bbr.full_bw_reached = c.bbr.full_bw_reached ∧
  d.bbr.bw = c.bbr.bw ∧ d.bbr.rtt_cnt = c.bbr.rtt_cnt

theorem cwndFrame_trans {a b c : Conn} (h1 : CwndFrame a b) (h2 : CwndFrame b c) :
    CwndFrame a c :=
  ⟨h2.1.trans h1.1, h2.2.1.trans h1.2.1, h2.2.2.1.trans h1.2.2.1,
   h2.2.2.2.1.trans h1.2.2.2.1, h2.2.2.2.2.1.trans h1.2.2.2.2.1,
   h2.2.2.2.2.2.1.trans h1.2.2.2.2.2.1, h2.2.2.2.2.2.2.1.trans h1.2.2.2.2.2.2.1,
   h2.2.2.2.2.2.2.2.trans h1.2.2.2.2.2.2.2⟩

theorem recover_frame (c : Conn) (rs : RateSample) (acked : Nat) :
    CwndFrame c (bbr_set_cwnd_to_recover_or_restore c rs acked).2.1 := by
  unfold bbr_set_cwnd_to_recover_or_restore
  dsimp only
  repeat' split
  all_goals exact ⟨rfl, rfl, rfl, rfl, rfl, rfl, rfl, rfl⟩

theorem done_frame (c : Conn) (w : Nat) : CwndFrame c (bbr_set_cwnd_done c w) := by
  unfold bbr_set_cwnd_done
  dsimp only
  split
  all_goals exact ⟨rfl, rfl, rfl, rfl, rfl, rfl, rfl, rfl⟩

theorem cwndFrame_set_cwnd (c : Conn) (rs : RateSample) (acked bw gain : Nat) :
    CwndFrame c (bbr_set_cwnd c rs acked bw gain) := by
  unfold bbr_set_cwnd
  dsimp only
  repeat' split
  all_goals
    first
    | exact done_frame _ _
    | exact cwndFrame_trans (recover_frame c rs acked) (done_frame _ _)

/-! ## Behaviour of the done step and of bbr_set_cwnd -/

/-- The exact value stored by the done step of bbr_set_cwnd. -/
theorem done_snd_cwnd (c : Conn) (w : Nat) :
    (bbr_set_cwnd_done c w).tp.snd_cwnd =
      if c.bbr.mode = bbr_mode.BBR_PROBE_RTT then
        min (min w c.tp.snd_cwnd_clamp) bbr_cwnd_min_target
      else min w c.tp.snd_cwnd_clamp := by
  unfold bbr_set_cwnd_done
  dsimp only

theorem done_le_probe_rtt (c : Conn) (w : Nat)
    (h : c.bbr.mode = bbr_mode.BBR_PROBE_RTT) :
    (bbr_set_cwnd_done c w).tp.snd_cwnd ≤ bbr_cwnd_min_target := by
  rw [done_snd_cwnd, if_pos h]
  exact min_le_right _ _

theorem done_ge (c : Conn) (w : Nat)
    (hw : bbr_cwnd_min_target ≤ w)
    (hc : bbr_cwnd_min_target ≤ c.tp.snd_cwnd_clamp) :
    bbr_cwnd_min_target ≤ (bbr_set_cwnd_done c w).tp.snd_cwnd := by
  rw [done_snd_cwnd]
  split
  all_goals omega

/-- In PROBE_RTT, bbr_set_cwnd always caps the stored cwnd to the 4-packet floor. -/
theorem set_cwnd_probe_rtt_le (c : Conn) (rs : RateSample) (acked bw gain : Nat)
    (h : c.bbr.mode = bbr_mode.BBR_PROBE_RTT) :
    (bbr_set_cwnd c rs acked bw gain).tp.snd_cwnd ≤ bbr_cwnd_min_target := by
  unfold bbr_set_cwnd
  dsimp only
  split
  case isTrue => exact done_le_probe_rtt _ _ h
  case isFalse =>
    split
    case isTrue => exact done_le_probe_rtt _ _ (((recover_frame c rs acked).2.2.1).trans h)
    case isFalse => exact done_le_probe_rtt _ _ (((recover_frame c rs acked).2.2.1).trans h)

/-- On the non-conserving path with acked > 0 the stored cwnd keeps the floor. -/
theorem set_cwnd_ge (c : Conn) (rs : RateSample) (acked bw gain : Nat)
    (ha : acked ≠ 0)
    (hrec : (bbr_set_cwnd_to_recover_or_restore c rs acked).1 = false)
    (hc : bbr_cwnd_min_target ≤ c.tp.snd_cwnd_clamp) :
    bbr_cwnd_min_target ≤ (bbr_set_cwnd c rs acked bw gain).tp.snd_cwnd := by
  unfold bbr_set_cwnd
  dsimp only
  rw [if_neg ha]
  have hfalse : ¬ ((bbr_set_cwnd_to_recover_or_restore c rs acked).1 = true) := by
    simp [hrec]
  rw [if_neg hfalse]
  refine done_ge _ _ (le_max_right _ _) ?_
  rw [(recover_frame c rs acked).2.1]
  exact hc

/-! ## Behaviour of bbr_update_gains -/

theorem gains_tp (c : Conn) : (bbr_update_gains c).tp = c.tp := by
  unfold bbr_update_gains
  repeat' split
  all_goals rfl

theorem coreFrame_gains (c : Conn) : CoreFrame c (bbr_update_gains c) := by
  unfold bbr_update_gains
  repeat' split
  all_goals exact ⟨rfl, rfl, rfl⟩

theorem update_gains_mode (c : Conn) : (bbr_update_gains c).bbr.mode = c.bbr.mode := by
  unfold bbr_update_gains
  repeat' split
  all_goals rfl

theorem update_gains_probe_rtt (c : Conn) (h : c.bbr.mode = bbr_mode.BBR_PROBE_RTT) :
    (bbr_update_gains c).bbr.pacing_gain = BBR_UNIT ∧
    (bbr_update_gains c).bbr.cwnd_gain = BBR_UNIT := by
  unfold bbr_update_gains
  split
  all_goals first
  | exact ⟨rfl, rfl⟩
  | simp_all

/-! ## The u32 comparison helpers on in-range values -/

theorem tcp_before_eq_false_iff (a b : Nat) (ha : a < 2 ^ 31) (hb : b < 2 ^ 31) :
    tcp_before a b = false ↔ b ≤ a := by
  unfold tcp_before u32sub
  simp only [decide_eq_false_iff_not, not_le]
  omega

theorem tcp_before_eq_true_iff (a b : Nat) (ha : a < 2 ^ 31) (hb : b < 2 ^ 31) :
    tcp_before a b = true ↔ a < b := by
  unfold tcp_before u32sub
  simp only [decide_eq_true_eq]
  omega

theorem u32abs_sub_eq (a b : Nat) (ha : a < 2 ^ 31) (hb : b < 2 ^ 31) :
    u32abs_sub a b = max a b - min a b := by
  unfold u32abs_sub u32sub
  split
  all_goals omega

/-! ## Composition facts about bbr_update_model -/

theorem update_model_clamp (c : Conn) (rs : RateSample) (rnd : Nat) :
    (bbr_update_model c rs rnd).tp.snd_cwnd_clamp = c.tp.snd_cwnd_clamp := by
  unfold bbr_update_model
  exact (congrArg Tcp.snd_cwnd_clamp (gains_tp _)).trans
    (((coreFrame_min_rtt _ rs rnd).1).trans
      (((coreFrame_drain _ rs rnd).1).trans
        (((coreFrame_full _ rs).1).trans
          (((coreFrame_cycle _ rs).1).trans
            (((coreFrame_ack _ rs).1).trans
              (congrArg Tcp.snd_cwnd_clamp (bwFrame_update_bw c rs rnd).1))))))

theorem update_model_fbr (c : Conn) (rs : RateSample) (rnd : Nat)
    (h : c.bbr.full_bw_reached = true) :
    (bbr_update_model c rs rnd).bbr.full_bw_reached = true := by
  unfold bbr_update_model
  have h1 : (bbr_update_bw c rs rnd).bbr.full_bw_reached = true :=
    ((bwFrame_update_bw c rs rnd).2.2).trans h
  have h2 := (ack_fbr _ rs).trans h1
  have h3 := (cycle_fbr _ rs).trans h2
  have h4 := check_full_mono _ rs h3
  have h5 := (drain_fbr _ rs rnd).trans h4
  have h6 := (min_rtt_fbr _ rs rnd).trans h5
  exact (gains_fbr _).trans h6

theorem update_model_gains (c : Conn) (rs : RateSample) (rnd : Nat)
    (h : (bbr_update_model c rs rnd).bbr.mode = bbr_mode.BBR_PROBE_RTT) :
    (bbr_update_model c rs rnd).bbr.pacing_gain = BBR_UNIT ∧
    (bbr_update_model c rs rnd).bbr.cwnd_gain = BBR_UNIT := by
  unfold bbr_update_model at h ⊢
  exact update_gains_probe_rtt _ ((update_gains_mode _).symm.trans h)

/-! ## The claims -/

/-- Claim C2: after every per-ACK control-loop call that ends with
mode = PROBE_RTT, the stored snd_cwnd is at most 4 packets and both
pacing_gain and cwnd_gain equal BBR_UNIT. -/
theorem claim_C2 (c : Conn) (rs : RateSample) (rnd : Nat)
    (h : (bbr_main c rs rnd).bbr.mode = bbr_mode.BBR_PROBE_RTT) :
    (bbr_main c rs rnd).tp.snd_cwnd ≤ bbr_cwnd_min_target ∧
    (bbr_main c rs rnd).bbr.pacing_gain = BBR_UNIT ∧
    (bbr_main c rs rnd).bbr.cwnd_gain = BBR_UNIT := by
  unfold bbr_main at h ⊢
  dsimp only at h ⊢
  have h2 : (bbr_set_pacing_rate (bbr_update_model c rs rnd)
      (bbr_bw (bbr_update_model c rs rnd))
      (bbr_update_model c rs rnd).bbr.pacing_gain).bbr.mode = bbr_mode.BBR_PROBE_RTT :=
    ((cwndFrame_set_cwnd _ _ _ _ _).2.2.1).symm.trans h
  have h1 : (bbr_update_model c rs rnd).bbr.mode = bbr_mode.BBR_PROBE_RTT :=
    ((pacFrame_set_pacing _ _ _).2.1).symm.trans h2
  obtain ⟨hpg, hcg⟩ := update_model_gains c rs rnd h1
  refine ⟨set_cwnd_probe_rtt_le _ _ _ _ _ h2, ?_, ?_⟩
  · exact ((cwndFrame_set_cwnd _ _ _ _ _).2.2.2.1).trans
      (((pacFrame_set_pacing _ _ _).2.2.1).trans hpg)
  · exact ((cwndFrame_set_cwnd _ _ _ _ _).2.2.2.2.1).trans
      (((pacFrame_set_pacing _ _ _).2.2.2.1).trans hcg)

theorem claim_C2_witness :
    (bbr_main conn_rtt rs0 0).tp.snd_cwnd ≤ bbr_cwnd_min_target ∧
    (bbr_main conn_rtt rs0 0).bbr.pacing_gain = BBR_UNIT ∧
    (bbr_main conn_rtt rs0 0).bbr.cwnd_gain = BBR_UNIT :=
  claim_C2 conn_rtt rs0 0 (by decide)

/-- Claim C3 counterexample: on the first round of loss recovery the
packet-conservation path stores cwnd = packets_in_flight + acked, which can
be below 4; here a control-loop call leaves snd_cwnd = 1 < 4 even though
the host clamp is well above 4 and acked > 0. -/
theorem claim_C3_counterexample :
    bbr_cwnd_min_target ≤ conn_rec.tp.snd_cwnd_clamp ∧
    rs_rec.acked_sacked ≠ 0 ∧
    (bbr_main conn_rec rs_rec 0).tp.snd_cwnd < bbr_cwnd_min_target := by decide

/-- Claim C3 (amended): after every per-ACK control-loop call in which
acked > 0, the packet-conservation/recovery path is not taken, and the host
clamp is at least 4, the stored snd_cwnd is at least 4. -/
theorem claim_C3 (c : Conn) (rs : RateSample) (rnd : Nat)
    (ha : rs.acked_sacked ≠ 0)
    (hclamp : bbr_cwnd_min_target ≤ c.tp.snd_cwnd_clamp)
    (hrec : (bbr_set_cwnd_to_recover_or_restore
        (bbr_set_pacing_rate (bbr_update_model c rs rnd)
          (bbr_bw (bbr_update_model c rs rnd))
          (bbr_update_model c rs rnd).bbr.pacing_gain)
        rs rs.acked_sacked).1 = false) :
    bbr_cwnd_min_target ≤ (bbr_main c rs rnd).tp.snd_cwnd := by
  unfold bbr_main
  dsimp only
  refine set_cwnd_ge _ _ _ _ _ ha hrec ?_
  have hcl : (bbr_set_pacing_rate (bbr_update_model c rs rnd)
      (bbr_bw (bbr_update_model c rs rnd))
      (bbr_update_model c rs rnd).bbr.pacing_gain).tp.snd_cwnd_clamp
      = c.tp.snd_cwnd_clamp :=
    (congrArg Tcp.snd_cwnd_clamp (pacFrame_set_pacing _ _ _).1).trans
      (update_model_clamp c rs rnd)
  rw [hcl]
  exact hclamp

theorem claim_C3_witness :
    rs0.acked_sacked ≠ 0 ∧ bbr_cwnd_min_target ≤ conn0.tp.snd_cwnd_clamp ∧
    bbr_cwnd_min_target ≤ (bbr_main conn0 rs0 0).tp.snd_cwnd :=
  ⟨by decide, by decide, claim_C3 conn0 rs0 0 (by decide) (by decide) (by decide)⟩

/-- Claim C4 counterexample: the draw 1 (a legal value of the uniform draw
over 0..6) makes bbr_reset_probe_bw_mode start the gain cycle at phase 7,
which the claim says is always avoided. -/
theorem claim_C4_counterexample :
    1 < bbr_cycle_rand ∧
    (bbr_reset_probe_bw_mode conn0 1).bbr.cycle_idx = 7 := by decide

/-- Claim C4 (amended): for every draw r in 0..6, the effective starting
cycle_idx after bbr_reset_probe_bw_mode is (8 - r) mod 8, a bijection of
the draws onto the phase set 0, 2, 3, 4, 5, 6, 7; the only avoided phase
is phase 1 (the 3/4 drain phase). -/
theorem claim_C4 (c : Conn) (r : Nat) (h : r < bbr_cycle_rand) :
    (bbr_reset_probe_bw_mode c r).bbr.cycle_idx = (CYCLE_LEN - r) % CYCLE_LEN ∧
    (bbr_reset_probe_bw_mode c r).bbr.cycle_idx ≠ 1 := by
  have h7 : r < 7 := h
  unfold bbr_reset_probe_bw_mode bbr_advance_cycle_phase prandom_u32_max
  dsimp only
  show (8 - 1 - r % 7 + 1) % 8 = (8 - r) % 8 ∧ (8 - 1 - r % 7 + 1) % 8 ≠ 1
  omega

theorem claim_C4_witness :
    3 < bbr_cycle_rand ∧
    ((bbr_reset_probe_bw_mode conn0 3).bbr.cycle_idx = (CYCLE_LEN - 3) % CYCLE_LEN ∧
      (bbr_reset_probe_bw_mode conn0 3).bbr.cycle_idx ≠ 1) :=
  ⟨by decide, claim_C4 conn0 3 (by decide)⟩

/-- Claim C5 counterexample: a sample with interval_us = 0 is invalid, yet
the control loop still moves the mode (here DRAIN becomes PROBE_BW via the
inflight-driven drain-completion check), so the mode is not preserved. -/
theorem claim_C5_counterexample :
    rs_invalid.interval_us ≤ 0 ∧
    (bbr_main conn_drain rs_invalid 0).bbr.mode ≠ conn_drain.bbr.mode := by decide

/-- Claim C5 (amended): on a sample with interval_us ≤ 0 or delivered < 0,
the control loop does not update the bandwidth model - the windowed-max bw
filter and the round count are unchanged - but the mode may still change
through clock- or inflight-driven transitions. -/
theorem claim_C5 (c : Conn) (rs : RateSample) (rnd : Nat)
    (h : rs.interval_us ≤ 0 ∨ rs.delivered < 0) :
    (bbr_main c rs rnd).bbr.bw = c.bbr.bw ∧
    (bbr_main c rs rnd).bbr.rtt_cnt = c.bbr.rtt_cnt := by
  have h0 : bbr_update_bw c rs rnd
      = { c with bbr := { c.bbr with round_start := false } } :=
    update_bw_invalid c rs rnd (Or.symm h)
  have hm : (bbr_update_model c rs rnd).bbr.bw = c.bbr.bw ∧
      (bbr_update_model c rs rnd).bbr.rtt_cnt = c.bbr.rtt_cnt := by
    unfold bbr_update_model
    rw [h0]
    constructor
    · exact (coreFrame_gains _).2.1.trans
        ((coreFrame_min_rtt _ rs rnd).2.1.trans
          ((coreFrame_drain _ rs rnd).2.1.trans
            ((coreFrame_full _ rs).2.1.trans
              ((coreFrame_cycle _ rs).2.1.trans
                ((coreFrame_ack _ rs).2.1)))))
    · exact (coreFrame_gains _).2.2.trans
        ((coreFrame_min_rtt _ rs rnd).2.2.trans
          ((coreFrame_drain _ rs rnd).2.2.trans
            ((coreFrame_full _ rs).2.2.trans
              ((coreFrame_cycle _ rs).2.2.trans
                ((coreFrame_ack _ rs).2.2)))))
  unfold bbr_main
  dsimp only
  constructor
  · exact ((cwndFrame_set_cwnd _ _ _ _ _).2.2.2.2.2.2.1).trans
      (((pacFrame_set_pacing _ _ _).2.2.2.2.2.1).trans hm.1)
  · exact ((cwndFrame_set_cwnd _ _ _ _ _).2.2.2.2.2.2.2).trans
      (((pacFrame_set_pacing _ _ _).2.2.2.2.2.2).trans hm.2)

theorem claim_C5_witness :
    (rs_invalid.interval_us ≤ 0 ∨ rs_invalid.delivered < 0) ∧
    (bbr_main conn_drain rs_invalid 0).bbr.bw = conn_drain.bbr.bw ∧
    (bbr_main conn_drain rs_invalid 0).bbr.rtt_cnt = conn_drain.bbr.rtt_cnt :=
  ⟨Or.inl (by decide), claim_C5 conn_drain rs_invalid 0 (Or.inl (by decide))⟩

/-- Claim C7: once full_bw_reached is true it stays true under the per-ACK
control loop and under the cwnd_event, set_state and ssthresh hooks; the
undo_cwnd hook clears the pipe-full detection counters (full_bw,
full_bw_cnt) and the long-term estimator state, and returns the current
snd_cwnd unchanged. -/
theorem claim_C7 :
    (∀ (c : Conn) (rs : RateSample) (rnd : Nat), c.bbr.full_bw_reached = true →
      (bbr_main c rs rnd).bbr.full_bw_reached = true) ∧
    (∀ (c : Conn) (ev rnd : Nat), c.bbr.full_bw_reached = true →
      (bbr_cwnd_event c ev rnd).bbr.full_bw_reached = true) ∧
    (∀ (c : Conn) (st rnd : Nat), c.bbr.full_bw_reached = true →
      (bbr_set_state c st rnd).bbr.full_bw_reached = true) ∧
    (∀ c : Conn, c.bbr.full_bw_reached = true →
      (bbr_ssthresh c).1.bbr.full_bw_reached = true) ∧
    (∀ c : Conn,
      (bbr_undo_cwnd c).1.bbr.full_bw = 0 ∧
      (bbr_undo_cwnd c).1.bbr.full_bw_cnt = 0 ∧
      (bbr_undo_cwnd c).1.bbr.lt_bw = 0 ∧
      (bbr_undo_cwnd c).1.bbr.lt_use_bw = false ∧
      (bbr_undo_cwnd c).1.bbr.lt_is_sampling = false ∧
      (bbr_undo_cwnd c).2 = c.tp.snd_cwnd ∧
      (bbr_undo_cwnd c).1.tp.snd_cwnd = c.tp.snd_cwnd) := by
  refine ⟨?_, ?_, ?_, ?_, ?_⟩
  · intro c rs rnd h
    unfold bbr_main
    dsimp only
    exact ((cwndFrame_set_cwnd _ _ _ _ _).2.2.2.2.2.1).trans
      (((pacFrame_set_pacing _ _ _).2.2.2.2.1).trans (update_model_fbr c rs rnd h))
  · intro c ev rnd h
    unfold bbr_cwnd_event
    dsimp only
    repeat' split
    all_goals
      first
      | exact h
      | exact ((pacFrame_set_pacing _ _ _).2.2.2.2.1).trans h
      | exact (prd_fbr _ _).trans h
  · intro c st rnd h
    unfold bbr_set_state
    dsimp only
    split
    case isTrue => exact ((ltFrame_lt_bw_sampling _ _ _).2.2.2.2.2.2.1).trans h
    case isFalse => exact h
  · intro c h
    unfold bbr_ssthresh
    dsimp only
    exact (save_cwnd_fbr c).trans h
  · intro c
    unfold bbr_undo_cwnd bbr_reset_lt_bw_sampling bbr_reset_lt_bw_sampling_interval
    dsimp only
    exact ⟨rfl, rfl, rfl, rfl, rfl, rfl, rfl⟩

theorem claim_C7_witness :
    conn_full.bbr.full_bw_reached = true ∧
    (bbr_main conn_full rs0 0).bbr.full_bw_reached = true ∧
    (bbr_undo_cwnd conn0).2 = conn0.tp.snd_cwnd :=
  ⟨by decide, claim_C7.1 conn_full rs0 0 (by decide),
   (claim_C7.2.2.2.2 conn0).2.2.2.2.2.1⟩

/-- Claim C10: with full_bw_reached still false the ack-aggregation bonus
bbr_ack_aggregation_cwnd is 0, whatever the extra_acked slots hold. -/
theorem claim_C10 (c : Conn) (h : c.bbr.full_bw_reached = false) :
    bbr_ack_aggregation_cwnd c = 0 := by
  unfold bbr_ack_aggregation_cwnd
  rw [if_neg (by simp [h])]

theorem claim_C10_witness :
    conn0.bbr.full_bw_reached = false ∧ bbr_ack_aggregation_cwnd conn0 = 0 :=
  ⟨by decide, claim_C10 conn0 (by decide)⟩

/-- A connection whose current round has completed (next_rtt_delivered has
been overtaken by the sample's prior_delivered). -/
def conn_round : Conn := { conn0 with bbr := { bbr0 with next_rtt_delivered := 50 } }

/-- Claim C1: on a per-ACK bbr_set_cwnd call with acked > 0 that the
recovery/packet-conservation preprocessing leaves alone (it returns false,
the connection c1 and the running cwnd1), the stored snd_cwnd is exactly
the floor and clamp caps applied to: min(cwnd1 + acked, target_cwnd) when
full_bw_reached, else cwnd1 + acked when cwnd1 < target_cwnd or total
delivered < TCP_INIT_CWND, else cwnd1 unchanged. -/
theorem claim_C1 (c c1 : Conn) (rs : RateSample) (acked bw gain cwnd1 : Nat)
    (ha : acked ≠ 0)
    (hrec : bbr_set_cwnd_to_recover_or_restore c rs acked = (false, c1, cwnd1)) :
    (bbr_set_cwnd c rs acked bw gain).tp.snd_cwnd =
      (let target_cwnd := bbr_quantization_budget c1
          (bbr_bdp c1 bw gain + bbr_ack_aggregation_cwnd c1)
       let cwnd2 :=
         if c1.bbr.full_bw_reached then min (cwnd1 + acked) target_cwnd
         else if cwnd1 < target_cwnd ∨ c1.tp.delivered < TCP_INIT_CWND then cwnd1 + acked
         else cwnd1
       if c1.bbr.mode = bbr_mode.BBR_PROBE_RTT then
         min (min (max cwnd2 bbr_cwnd_min_target) c1.tp.snd_cwnd_clamp) bbr_cwnd_min_target
       else min (max cwnd2 bbr_cwnd_min_target) c1.tp.snd_cwnd_clamp) := by
  unfold bbr_set_cwnd
  dsimp only
  rw [if_neg ha, hrec]
  dsimp only
  rw [if_neg Bool.false_ne_true]
  rw [done_snd_cwnd]

theorem claim_C1_witness :
    (bbr_set_cwnd conn0 rs0 2 16777 512).tp.snd_cwnd =
      (let target_cwnd := bbr_quantization_budget conn0
          (bbr_bdp conn0 16777 512 + bbr_ack_aggregation_cwnd conn0)
       let cwnd2 :=
         if conn0.bbr.full_bw_reached then min (10 + 2) target_cwnd
         else if 10 < target_cwnd ∨ conn0.tp.delivered < TCP_INIT_CWND then 10 + 2
         else 10
       if conn0.bbr.mode = bbr_mode.BBR_PROBE_RTT then
         min (min (max cwnd2 bbr_cwnd_min_target) conn0.tp.snd_cwnd_clamp) bbr_cwnd_min_target
       else min (max cwnd2 bbr_cwnd_min_target) conn0.tp.snd_cwnd_clamp) :=
  claim_C1 conn0 conn0 rs0 2 16777 512 10 (by decide) (by decide)

/-- Claim C8: on a valid rate sample, bbr_update_bw signals round_start
exactly on the sample whose prior_delivered has reached next_rtt_delivered,
simultaneously setting next_rtt_delivered to the current delivered count,
incrementing rtt_cnt and clearing packet_conservation; on a sample that has
not reached the round boundary, round_start is (re)cleared. -/
theorem claim_C8 (c : Conn) (rs : RateSample) (rnd : Nat)
    (hd : 0 ≤ rs.delivered) (hi : 0 < rs.interval_us)
    (hp : rs.prior_delivered < 2 ^ 31) (hn : c.bbr.next_rtt_delivered < 2 ^ 31)
    (hcnt : c.bbr.rtt_cnt + 1 < 2 ^ 32) :
    (c.bbr.next_rtt_delivered ≤ rs.prior_delivered →
      (bbr_update_bw c rs rnd).bbr.round_start = true ∧
      (bbr_update_bw c rs rnd).bbr.next_rtt_delivered = c.tp.delivered ∧
      (bbr_update_bw c rs rnd).bbr.rtt_cnt = c.bbr.rtt_cnt + 1 ∧
      (bbr_update_bw c rs rnd).bbr.packet_conservation = false) ∧
    (rs.prior_delivered < c.bbr.next_rtt_delivered →
      (bbr_update_bw c rs rnd).bbr.round_start = false) := by
  have hval : ¬ (rs.delivered < 0 ∨ rs.interval_us ≤ 0) := by omega
  unfold bbr_update_bw
  dsimp only
  rw [if_neg hval]
  constructor
  · intro hle
    have hbef : tcp_before rs.prior_delivered c.bbr.next_rtt_delivered = false :=
      (tcp_before_eq_false_iff _ _ hp hn).mpr hle
    have hcond : ¬ (tcp_before rs.prior_delivered c.bbr.next_rtt_delivered = true) := by
      simp [hbef]
    rw [if_pos hcond]
    refine ⟨?_, ?_, ?_, ?_⟩
    · exact ((update_bw_sample_fields _ _).2.1).trans
        ((ltFrame_lt_bw_sampling _ _ _).2.2.1)
    · exact ((update_bw_sample_fields _ _).2.2.1).trans
        ((ltFrame_lt_bw_sampling _ _ _).2.2.2.1)
    · exact (((update_bw_sample_fields _ _).2.2.2.1).trans
        ((ltFrame_lt_bw_sampling _ _ _).2.2.2.2.1)).trans (Nat.mod_eq_of_lt hcnt)
    · exact ((update_bw_sample_fields _ _).2.2.2.2).trans
        ((ltFrame_lt_bw_sampling _ _ _).2.2.2.2.2.1)
  · intro hlt
    have hbef : tcp_before rs.prior_delivered c.bbr.next_rtt_delivered = true :=
      (tcp_before_eq_true_iff _ _ hp hn).mpr hlt
    have hcond : ¬ ¬ (tcp_before rs.prior_delivered c.bbr.next_rtt_delivered = true) :=
      fun hh => hh hbef
    rw [if_neg hcond]
    exact ((update_bw_sample_fields _ _).2.1).trans
      ((ltFrame_lt_bw_sampling _ _ _).2.2.1)

theorem claim_C8_witness :
    conn_round.bbr.next_rtt_delivered ≤ rs0.prior_delivered ∧
    ((bbr_update_bw conn_round rs0 0).bbr.round_start = true ∧
      (bbr_update_bw conn_round rs0 0).bbr.next_rtt_delivered = conn_round.tp.delivered ∧
      (bbr_update_bw conn_round rs0 0).bbr.rtt_cnt = conn_round.bbr.rtt_cnt + 1 ∧
      (bbr_update_bw conn_round rs0 0).bbr.packet_conservation = false) :=
  ⟨by decide,
   (claim_C8 conn_round rs0 0 (by decide) (by decide) (by decide) (by decide)
     (by decide)).1 (by decide)⟩

/-- A connection with an LT candidate of 2^24 packets-per-usec units
(about 12 Gbyte/s scaled bandwidth), against which a measured bw of
3 * 2^24 makes diff * BBR_UNIT = 2^33 overflow a u32. -/
def conn_wrap : Conn :=
  { conn_lt with bbr := { conn_lt.bbr with lt_bw := 16777216 } }

/-- Claim C9, counterexample: the estimator does NOT engage only when the
two intervals' throughputs are close. With lt_bw = 2^24 and bw = 3 * 2^24,
the difference diff = 2^25 is far outside both thresholds (neither
diff * BBR_UNIT = 2^33 at most lt_bw * BBR_UNIT/8 = 2^27, nor the rate
conversion at most 4 Kbit/s), yet the u32 product diff * BBR_UNIT wraps
to 0 and bbr_lt_bw_interval_done engages lt_use_bw anyway. -/
theorem claim_C9_counterexample :
    ¬ ((max 50331648 conn_wrap.bbr.lt_bw - min 50331648 conn_wrap.bbr.lt_bw) * BBR_UNIT ≤
          bbr_lt_bw_ratio_thr * conn_wrap.bbr.lt_bw ∨
        bbr_rate_bytes_per_sec conn_wrap
            (max 50331648 conn_wrap.bbr.lt_bw - min 50331648 conn_wrap.bbr.lt_bw)
            BBR_UNIT ≤
          bbr_lt_bw_diff) ∧
    (bbr_lt_bw_interval_done conn_wrap 50331648).bbr.lt_use_bw = true := by
  decide

/-- Claim C9 (amended): when a long-term interval completes with measured
throughput bw and a previous candidate lt_bw exists (and the estimator is
not yet engaged), bbr_lt_bw_interval_done engages - lt_use_bw = 1, lt_bw
set to the average of the two intervals, pacing_gain = BBR_UNIT - exactly
when the u32-truncated product diff * BBR_UNIT is at most the u32-truncated
product (BBR_UNIT/8) * lt_bw, or the difference converts to at most
4 Kbit/s; otherwise bw becomes the candidate and a fresh interval starts.
Both products wrap mod 2^32 as in the C, so the closeness test is not the
exact-arithmetic one: when diff * BBR_UNIT overflows a u32 the estimator
can engage on widely different intervals. -/
theorem claim_C9 (c : Conn) (bw : Nat)
    (hlt : c.bbr.lt_bw ≠ 0) (huse : c.bbr.lt_use_bw = false)
    (hbw : bw < 2 ^ 31) (hlt2 : c.bbr.lt_bw < 2 ^ 31) :
    ((bbr_lt_bw_interval_done c bw).bbr.lt_use_bw = true ↔
      ((max bw c.bbr.lt_bw - min bw c.bbr.lt_bw) * BBR_UNIT % 2 ^ 32 ≤
          bbr_lt_bw_ratio_thr * c.bbr.lt_bw % 2 ^ 32 ∨
        bbr_rate_bytes_per_sec c (max bw c.bbr.lt_bw - min bw c.bbr.lt_bw) BBR_UNIT ≤
          bbr_lt_bw_diff)) ∧
    (((max bw c.bbr.lt_bw - min bw c.bbr.lt_bw) * BBR_UNIT % 2 ^ 32 ≤
          bbr_lt_bw_ratio_thr * c.bbr.lt_bw % 2 ^ 32 ∨
        bbr_rate_bytes_per_sec c (max bw c.bbr.lt_bw - min bw c.bbr.lt_bw) BBR_UNIT ≤
          bbr_lt_bw_diff) →
      (bbr_lt_bw_interval_done c bw).bbr.lt_bw = (bw + c.bbr.lt_bw) / 2 ∧
      (bbr_lt_bw_interval_done c bw).bbr.pacing_gain = BBR_UNIT ∧
      (bbr_lt_bw_interval_done c bw).bbr.lt_rtt_cnt = 0) ∧
    (¬ ((max bw c.bbr.lt_bw - min bw c.bbr.lt_bw) * BBR_UNIT % 2 ^ 32 ≤
          bbr_lt_bw_ratio_thr * c.bbr.lt_bw % 2 ^ 32 ∨
        bbr_rate_bytes_per_sec c (max bw c.bbr.lt_bw - min bw c.bbr.lt_bw) BBR_UNIT ≤
          bbr_lt_bw_diff) →
      (bbr_lt_bw_interval_done c bw).bbr.lt_use_bw = false ∧
      (bbr_lt_bw_interval_done c bw).bbr.lt_bw = bw ∧
      (bbr_lt_bw_interval_done c bw).bbr.lt_rtt_cnt = 0 ∧
      (bbr_lt_bw_interval_done c bw).bbr.lt_last_delivered = c.tp.delivered ∧
      (bbr_lt_bw_interval_done c bw).bbr.lt_last_lost = c.tp.lost) := by
  have habs := u32abs_sub_eq bw c.bbr.lt_bw hbw hlt2
  have hsum : (bw + c.bbr.lt_bw) % 2 ^ 32 = bw + c.bbr.lt_bw :=
    Nat.mod_eq_of_lt (by omega)
  unfold bbr_lt_bw_interval_done bbr_reset_lt_bw_sampling_interval
  dsimp only
  rw [if_pos hlt, habs]
  by_cases hE : ((max bw c.bbr.lt_bw - min bw c.bbr.lt_bw) * BBR_UNIT % 2 ^ 32 ≤
      bbr_lt_bw_ratio_thr * c.bbr.lt_bw % 2 ^ 32 ∨
    bbr_rate_bytes_per_sec c (max bw c.bbr.lt_bw - min bw c.bbr.lt_bw) BBR_UNIT ≤
      bbr_lt_bw_diff)
  · rw [if_pos hE]
    exact ⟨iff_of_true rfl hE,
      fun h2 => ⟨by dsimp only; rw [hsum], rfl, rfl⟩, fun h2 => absurd hE h2⟩
  · rw [if_neg hE]
    refine ⟨iff_of_false (by simp [huse]) hE, fun h2 => absurd h2 hE,
      fun h2 => ⟨huse, rfl, rfl, rfl, rfl⟩⟩

theorem claim_C9_witness :
    conn_lt.bbr.lt_bw ≠ 0 ∧
    ((bbr_lt_bw_interval_done conn_lt 165000).bbr.lt_use_bw = true ↔
      ((max 165000 conn_lt.bbr.lt_bw - min 165000 conn_lt.bbr.lt_bw) * BBR_UNIT % 2 ^ 32 ≤
          bbr_lt_bw_ratio_thr * conn_lt.bbr.lt_bw % 2 ^ 32 ∨
        bbr_rate_bytes_per_sec conn_lt
            (max 165000 conn_lt.bbr.lt_bw - min 165000 conn_lt.bbr.lt_bw) BBR_UNIT ≤
          bbr_lt_bw_diff)) :=
  ⟨by decide,
   (claim_C9 conn_lt 165000 (by decide) (by decide) (by decide) (by decide)).1⟩

/-- Claim C6: in the supported range (bw*mss at most 362500*BW_UNIT,
i.e. 2.9 Tbit/s, and gain at most 739 = 2.89 in BBR_UNIT fixed point),
bbr_rate_bytes_per_sec computes exactly its no-overflow value (every
64-bit intermediate stays below 2^64), that value is within one ULP of
bw * mss * gain * (USEC_PER_SEC/100) * 99 >> (BW_SCALE + BBR_SCALE), and
bbr_bw_to_pacing_rate never exceeds sk_max_pacing_rate. -/
theorem claim_C6 (c : Conn) (bw gain : Nat)
    (hbw : bw * c.tp.mss_cache ≤ 362500 * BW_UNIT)
    (hgain : gain ≤ 739) :
    bbr_rate_bytes_per_sec c bw gain =
      bw * c.tp.mss_cache * gain / 2 ^ BBR_SCALE * (USEC_PER_SEC / 100 * 99) /
        2 ^ BW_SCALE ∧
    bbr_rate_bytes_per_sec c bw gain ≤
      bw * c.tp.mss_cache * gain * (USEC_PER_SEC / 100) * 99 /
        2 ^ (BW_SCALE + BBR_SCALE) ∧
    bw * c.tp.mss_cache * gain * (USEC_PER_SEC / 100) * 99 /
        2 ^ (BW_SCALE + BBR_SCALE) ≤
      bbr_rate_bytes_per_sec c bw gain + 1 ∧
    bbr_bw_to_pacing_rate c bw gain ≤ c.sk.sk_max_pacing_rate := by
  have hbw6 : bw * c.tp.mss_cache ≤ 6081740800000 := by
    calc bw * c.tp.mss_cache ≤ 362500 * BW_UNIT := hbw
    _ = 6081740800000 := by decide
  have hx : bw * c.tp.mss_cache * gain ≤ 4494406451200000 := by
    calc bw * c.tp.mss_cache * gain ≤ 6081740800000 * 739 := Nat.mul_le_mul hbw6 hgain
    _ = 4494406451200000 := by decide
  have h2p : (2 : Nat) ^ 64 = 18446744073709551616 := by norm_num
  have h64a : bw * c.tp.mss_cache < 2 ^ 64 := by omega
  have h64b : bw * c.tp.mss_cache * gain < 2 ^ 64 := by omega
  have hq : bw * c.tp.mss_cache * gain / 2 ^ 8 ≤ 17556275200000 := by
    have h1 : bw * c.tp.mss_cache * gain / 2 ^ 8 ≤ 4494406451200000 / 2 ^ 8 :=
      Nat.div_le_div_right hx
    have h2 : (4494406451200000 : Nat) / 2 ^ 8 = 17556275200000 := by norm_num
    omega
  have h64c : bw * c.tp.mss_cache * gain / 2 ^ 8 * 990000 < 2 ^ 64 := by
    calc bw * c.tp.mss_cache * gain / 2 ^ 8 * 990000 ≤ 17556275200000 * 990000 :=
      Nat.mul_le_mul_right 990000 hq
    _ = 17380712448000000000 := by norm_num
    _ < 2 ^ 64 := by norm_num
  have e1 : bw * c.tp.mss_cache % 2 ^ 64 = bw * c.tp.mss_cache := Nat.mod_eq_of_lt h64a
  have e2 : bw * c.tp.mss_cache * gain % 2 ^ 64 = bw * c.tp.mss_cache * gain :=
    Nat.mod_eq_of_lt h64b
  have e3 : bw * c.tp.mss_cache * gain / 2 ^ 8 * 990000 % 2 ^ 64 =
      bw * c.tp.mss_cache * gain / 2 ^ 8 * 990000 := Nat.mod_eq_of_lt h64c
  have heq : bbr_rate_bytes_per_sec c bw gain =
      bw * c.tp.mss_cache * gain / 2 ^ 8 * 990000 / 2 ^ 24 := by
    unfold bbr_rate_bytes_per_sec
    dsimp only
    rw [e1, e2, Nat.shiftRight_eq_div_pow, Nat.shiftRight_eq_div_pow,
      show BBR_SCALE = 8 from rfl, show BW_SCALE = 24 from rfl,
      show (USEC_PER_SEC / 100 * (100 - bbr_pacing_margin_percent) : Nat) = 990000 from
        by decide,
      e3]
  have hspec : bw * c.tp.mss_cache * gain * (USEC_PER_SEC / 100) * 99 =
      bw * c.tp.mss_cache * gain * 990000 := by
    rw [show (USEC_PER_SEC / 100 : Nat) = 10000 from by decide]
    ring
  have key : bw * c.tp.mss_cache * gain * 990000 / 2 ^ 32 ≤
      bw * c.tp.mss_cache * gain / 2 ^ 8 * 990000 / 2 ^ 24 + 1 ∧
      bw * c.tp.mss_cache * gain / 2 ^ 8 * 990000 / 2 ^ 24 ≤
      bw * c.tp.mss_cache * gain * 990000 / 2 ^ 32 := by
    generalize bw * c.tp.mss_cache * gain = x
    omega
  refine ⟨heq, ?_, ?_, min_le_right _ _⟩
  · rw [heq, hspec, show (BW_SCALE + BBR_SCALE : Nat) = 32 from rfl]
    exact key.2
  · rw [heq, hspec, show (BW_SCALE + BBR_SCALE : Nat) = 32 from rfl]
    exact key.1

theorem claim_C6_witness :
    2 ^ 24 * conn0.tp.mss_cache ≤ 362500 * BW_UNIT ∧ (739 : Nat) ≤ 739 ∧
    (bbr_rate_bytes_per_sec conn0 (2 ^ 24) 739 =
      2 ^ 24 * conn0.tp.mss_cache * 739 / 2 ^ BBR_SCALE * (USEC_PER_SEC / 100 * 99) /
        2 ^ BW_SCALE ∧
    bbr_rate_bytes_per_sec conn0 (2 ^ 24) 739 ≤
      2 ^ 24 * conn0.tp.mss_cache * 739 * (USEC_PER_SEC / 100) * 99 /
        2 ^ (BW_SCALE + BBR_SCALE) ∧
    2 ^ 24 * conn0.tp.mss_cache * 739 * (USEC_PER_SEC / 100) * 99 /
        2 ^ (BW_SCALE + BBR_SCALE) ≤
      bbr_rate_bytes_per_sec conn0 (2 ^ 24) 739 + 1 ∧
    bbr_bw_to_pacing_rate conn0 (2 ^ 24) 739 ≤ conn0.sk.sk_max_pacing_rate) :=
  ⟨by decide, by decide, claim_C6 conn0 (2 ^ 24) 739 (by decide) (by decide)⟩
